import Mathlib

/-!
Verification development for `mintpy/prep_isce.py` (MintPy's ISCE metadata
preparation utility).

The Python module is shallowly embedded as follows.

* File-system paths are lists of components (`Path`); a directory entry
  `a/b/c` is `["a", "b", "c"]`.  `os.path.dirname` drops the last component,
  `os.path.basename` takes it, `os.path.abspath` is the identity (all modelled
  paths are taken to be absolute).
* The surrounding world (existing files, modification times, and everything
  obtained through the external ISCE / numpy / MintPy-utils object model) is a
  record `World` of explicit data; every external read is a field lookup.
* Python `dict`s with string keys become insertion-ordered association lists
  (`Meta`) with in-place update (`setVal`), mirroring `d[k] = v`.
* Python floats are embedded as real numbers (exact arithmetic; IEEE rounding
  and NaN behaviour are outside the model).  Field division is total with
  `x / 0 = 0`, a Python `ZeroDivisionError` is not modelled.
* Fallible code returns `Except String α`; the string names the Python
  exception that would be raised.
-/

namespace PrepIsce

noncomputable section


/-! ### Paths and glob matching -/

/-- A file-system path, as its list of components. -/
abbrev Path := List String

/-- Python `os.path.dirname`. -/
def dirname (p : Path) : Path := p.dropLast

/-- Python `os.path.basename` (empty string for the empty path). -/
def basename (p : Path) : String := p.getLastD ""

/-- Rewrite the last component of a path (used for suffixing, e.g.
`'{}.rsc'.format(path)`). -/
def withLast (p : Path) (f : String → String) : Path :=
  p.dropLast ++ [f (p.getLastD "")]

/-- Glob matching on component strings: `*` matches any (possibly empty)
sequence of characters; every other character matches itself.  The fuel
argument (structural recursion, so that the kernel can evaluate it) strictly
exceeds the sum of the two list lengths, which every recursive call
decreases. -/
def globMatchL : Nat → List Char → List Char → Bool
  | 0, _, _ => false
  | _ + 1, [], [] => true
  | _ + 1, [], _ :: _ => false
  | n + 1, '*' :: ps, [] => globMatchL n ps []
  | n + 1, '*' :: ps, c :: cs =>
    globMatchL n ps (c :: cs) || globMatchL n ('*' :: ps) cs
  | _ + 1, _ :: _, [] => false
  | n + 1, p :: ps, c :: cs => p = c && globMatchL n ps cs

/-- Glob matching on strings. -/
def globMatch (pat s : String) : Bool :=
  globMatchL (pat.toList.length + s.toList.length + 1) pat.toList s.toList

/-- `glob.glob(os.path.join(dir, pat))`: the files directly inside `dir`
whose name matches `pat`, in directory (model: `files` list) order.
Python's `glob.glob` does not sort its result. -/
def globDir (files : List Path) (dir : Path) (pat : String) : List Path :=
  files.filter (fun p => decide (p.dropLast = dir) && globMatch pat (basename p))

/-- `glob.glob(os.path.join(dir, '*', pat))`: files one sub-directory below
`dir` whose name matches `pat`. -/
def glob2 (files : List Path) (dir : Path) (pat : String) : List Path :=
  files.filter (fun p =>
    match p.drop dir.length with
    | [_, b] => decide (p.take dir.length = dir) && globMatch pat b
    | _ => false)

/-- Join a path back into the string Python sorts on. -/
def joinPath (p : Path) : String := String.join (p.intersperse "/")

/-- Python `sorted` on a list of paths (lexicographic on the joined string). -/
def sortPaths (l : List Path) : List Path :=
  l.insertionSort (fun a b => joinPath a ≤ joinPath b)

/-- Python substring containment `sub in s`. -/
def strContains (s sub : String) : Bool :=
  s.toList.tails.any (fun t => sub.toList.isPrefixOf t)

/-- Python `s.startswith(pre)` (character-list based so that the kernel can
evaluate it). -/
def pyStartsWith (s pre : String) : Bool := pre.toList.isPrefixOf s.toList

/-- Python `s.endswith(suf)`. -/
def pyEndsWith (s suf : String) : Bool := suf.toList.isSuffixOf s.toList

/-- Helper for `pySplit`: split a character list at every occurrence of the
(non-empty) separator, scanning left to right.  The fuel bounds the number
of consumed characters. -/
def splitLAux (sep : List Char) : Nat → List Char → List Char →
    List (List Char)
  | 0, acc, _ => [acc.reverse]
  | _ + 1, acc, [] => [acc.reverse]
  | n + 1, acc, c :: cs =>
    if sep.isPrefixOf (c :: cs) then
      acc.reverse :: splitLAux sep n [] ((c :: cs).drop sep.length)
    else splitLAux sep n (c :: acc) cs

/-- Python `s.split(sep)` for a non-empty separator: adjacent separators
yield empty fields, the empty string yields `[""]`. -/
def pySplit (s sep : String) : List String :=
  (splitLAux sep.toList (s.toList.length + 1) [] s.toList).map String.mk

/-- Python `s.replace(pat, repl)` for a non-empty pattern. -/
def pyReplace (s pat repl : String) : String :=
  String.join ((pySplit s pat).intersperse repl)

/-- Python slicing `s[a:b]` (with `0 ≤ a ≤ b`). -/
def pySlice (s : String) (a b : Nat) : String :=
  String.mk ((s.toList.drop a).take (b - a))

/-- Helper for `stripExt`: on the reversed character list, drop everything up
to and including the last `.` of the original string. -/
def stripExtAux : List Char → Option (List Char)
  | [] => none
  | c :: rest => if c = '.' then some rest else stripExtAux rest

/-- `os.path.splitext(s)[0]` (for ordinary names that do not start with a
dot): the name with its last extension removed. -/
def stripExt (s : String) : String :=
  match stripExtAux s.toList.reverse with
  | some [] => s
  | some pre => String.mk pre.reverse
  | none => s

/-! ### Python indexing and numeric helpers -/

/-- Python list indexing `l[i]`, with negative indices counting from the end
and `IndexError` outside the range. -/
def pyIdx {α : Type} (l : List α) (i : ℤ) : Except String α :=
  let j : ℤ := if i < 0 then i + l.length else i
  if h : 0 ≤ j ∧ j.toNat < l.length then .ok (l.get ⟨j.toNat, h.2⟩)
  else .error "IndexError: list index out of range"

/-- Turn an optional lookup into a Python exception. -/
def optToE {α : Type} (o : Option α) (e : String) : Except String α :=
  match o with
  | some a => .ok a
  | none => .error e

/-- `np.mean` of a list of numbers (the empty-list NaN case is outside the
model; with total real division the empty mean is `0`). -/
def npMean (l : List ℝ) : ℝ := l.sum / l.length

/-- Python `int(x)` on a float: truncation toward zero. -/
def pyTrunc (x : ℝ) : ℤ := if 0 ≤ x then ⌊x⌋ else ⌈x⌉

/-- `np.round` to the nearest integer, ties to even (IEEE / numpy
`round half to even`). -/
def npRound (x : ℝ) : ℤ :=
  if x - ⌊x⌋ < 1 / 2 then ⌊x⌋
  else if 1 / 2 < x - ⌊x⌋ then ⌊x⌋ + 1
  else if ⌊x⌋ % 2 = 0 then ⌊x⌋ else ⌊x⌋ + 1

/-- Whether an `Except` result is a success (used only to state witnesses). -/
def excIsOk {α : Type} : Except String α → Bool
  | .ok _ => true
  | .error _ => false

/-! ### The external ISCE object model

The ISCE toolkit objects read through `load_product` / `shelve` are pure data
to this program; they are embedded as records.  External computations on them
(hermite orbit interpolation, ENU heading, ellipsoid geodesy) are fields of
function type: the program only ever forwards their results. -/

/-- A `datetime` value: the clock fields the program reads, plus the absolute
time in seconds used for `datetime` subtraction (`total_seconds`). -/
structure DateTime where
  hour : ℤ
  minute : ℤ
  second : ℤ
  absSeconds : ℝ

structure Vec3 where
  x : ℝ
  y : ℝ
  z : ℝ

/-- An orbit state vector, as produced by `orbit.interpolateOrbit`. -/
structure StateVector where
  position : Vec3
  velocity : Vec3

/-- The external orbit object: hermite interpolation and ENU heading are
opaque functions of the queried time. -/
structure Orbit where
  interpolateOrbit : DateTime → StateVector
  getENUHeading : DateTime → ℝ

/-- A Sentinel-1 TOPS burst object. -/
structure Burst where
  prf : ℝ
  burstStartUTC : DateTime
  burstStopUTC : DateTime
  radarWavelength : ℝ
  startingRange : ℝ
  passDirection : String
  polarization : String
  trackNumber : ℤ
  orbitNumber : ℤ
  sensingMid : DateTime
  azimuthTimeInterval : ℝ
  rangePixelSize : ℝ
  swathNumber : ℤ
  orbit : Orbit

/-- The product object loaded from a topsStack `IW*.xml` file. -/
structure TopsProduct where
  bursts : List Burst
  ascendingNodeTime : DateTime

structure Platform where
  antennaLength : ℝ

structure Instrument where
  pulseLength : ℝ
  chirpSlope : ℝ
  rangePixelSize : ℝ

/-- A stripmap frame object (from a shelve file or a stripmapApp xml).
`radarWavelegth` reproduces the attribute name used by the source.
`polarization` holds Python's `str()` of the frame's polarization attribute
(which is how the source consumes it). -/
structure Frame where
  PRF : ℝ
  sensingStart : DateTime
  sensingStop : DateTime
  sensingMid : DateTime
  radarWavelegth : ℝ
  startingRange : ℝ
  polarization : String
  trackNumber : ℤ
  orbitNumber : ℤ
  orbit : Orbit
  platform : Platform
  instrument : Instrument

/-- What `load_product` can return. -/
inductive IsceProduct where
  | tops (p : TopsProduct)
  | strip (f : Frame)

/-! ### Metadata dictionaries -/

/-- A value stored in a metadata dictionary: Python strings, ints, floats and
`datetime` objects all occur. -/
inductive Value where
  | str (s : String)
  | int (n : ℤ)
  | real (x : ℝ)
  | dt (d : DateTime)

/-- A Python string-keyed dict, as an insertion-ordered association list. -/
abbrev Meta := List (String × Value)

/-- `d[k] = v`: replace in place if the key exists, else append. -/
def setVal : Meta → String → Value → Meta
  | [], k, v => [(k, v)]
  | (k', v') :: rest, k, v =>
    if k' = k then (k, v) :: rest else (k', v') :: setVal rest k v

/-- `d.get(k)`. -/
def getVal : Meta → String → Option Value
  | [], _ => none
  | (k', v') :: rest, k => if k' = k then some v' else getVal rest k

/-- `base.update(overlay)`: assign every pair of `overlay` into `base`. -/
def updateMeta (base overlay : Meta) : Meta :=
  overlay.foldl (fun acc kv => setVal acc kv.1 kv.2) base

/-- Using a dict entry as a number: floats and ints coerce, a missing key is a
`KeyError`, a non-numeric value a `TypeError`. -/
def asR (o : Option Value) : Except String ℝ :=
  match o with
  | some (.real x) => .ok x
  | some (.int n) => .ok (n : ℝ)
  | some (.str _) => .error "TypeError: unsupported operand type str"
  | some (.dt _) => .error "TypeError: unsupported operand type datetime"
  | none => .error "KeyError"

/-! ### The world: files and external reads -/

/-- Everything `prep_isce.py` observes about its environment.  Each field
models one external read performed by the source. -/
structure World where
  /-- the set (list) of existing files -/
  files : List Path
  /-- `os.path.getmtime` -/
  mtime : Path → ℤ
  /-- `readfile.read_roipac_rsc`: the metadata stored in an rsc file -/
  rscData : Path → Meta
  /-- `load_product` (ISCE ProductManager) -/
  loadProd : Path → Except String IsceProduct
  /-- `shelve.open(base)['frame']` -/
  shelfFrame : Path → Except String Frame
  /-- `int(readfile.read_isce_xml(file)[key])` for `LENGTH`/`WIDTH` -/
  xmlInt : Path → String → Option ℤ
  /-- `int(readfile.read_attribute(file)[key])` for `LENGTH`/`WIDTH` -/
  attrInt : Path → String → Option ℤ
  /-- `readfile.read_attribute(file, metafile_ext='.xml')` as a dict -/
  attrMeta : Path → Meta
  /-- `readfile.read(file)[0]` / `readfile.read(file, datasetName=ds)[0]`:
  a 2-D raster, row major -/
  raster : Path → Option String → List (List ℝ)
  /-- the text lines of a (baseline) file -/
  textLines : Path → List String
  /-- `float(readfile.read_template(file, delimiter=' ')[key])` -/
  templNum : Path → String → Option ℝ
  /-- Python `float(s)` on a string -/
  pyFloat : String → Except String ℝ
  /-- Python `str()` of a float -/
  fstr : ℝ → String
  /-- Python `str()` of a datetime -/
  dtStr : DateTime → String

/-- The external `Planet(pname='Earth').ellipsoid` object: coordinate
conversion and (after `setSCH(lat, lon, hdg)`) the peg radius of curvature. -/
structure Ellipsoid where
  xyz_to_llh : Vec3 → ℝ × ℝ × ℝ
  pegRadCur : ℝ → ℝ → ℝ → ℝ

/-- `str()` of a dict value, rendering through the world's (external) float
and datetime formatters. -/
def pyStrV (w : World) : Value → String
  | .str s => s
  | .int n => toString n
  | .real x => w.fstr x
  | .dt d => w.dtStr d

/-! ### `get_processor` -/

/-- `get_processor` (prep_isce.py lines 69-84): detect the ISCE sub-processor
convention from the metadata file's directory. -/
def get_processor (w : World) (meta_file : Path) : Except String String :=
  let meta_dir := dirname meta_file
  if globDir w.files meta_dir "IW*.xml" ≠ [] then .ok "tops"
  else if (meta_dir ++ ["data.dat"]) ∈ w.files then .ok "stripmap"
  else if pyEndsWith (basename meta_file) ".xml" then .ok "stripmap"
  else .error "ValueError: Un-recognized ISCE processor for metadata file"

/-! ### `extract_multilook_number` and `extract_geometry_metadata` -/

/-- The body of the `for fbase in ['hgt','lat','lon','los']` loop of
`extract_multilook_number` (lines 222-232): the first name whose glob result
is non-empty and whose first file has a `.full.xml` sidecar determines
`ALOOKS`/`RLOOKS` (Python `int(int(a)/int(b))`, i.e. division truncated
toward zero) and breaks; otherwise the loop continues. -/
def multilookLoop (w : World) (geom_dir : Path) :
    List String → Meta → Except String Meta
  | [], m => .ok m
  | fb :: rest, m =>
    let fnames := globDir w.files geom_dir (fb ++ "*.rdr") ++
      globDir w.files geom_dir (fb ++ "*.geo")
    match fnames.head? with
    | none => multilookLoop w geom_dir rest m
    | some f0 =>
      let fullXmlFile := withLast f0 (fun b => b ++ ".full.xml")
      if fullXmlFile ∈ w.files then do
        let fullL ← optToE (w.xmlInt fullXmlFile "LENGTH") "KeyError: LENGTH"
        let l ← optToE (w.attrInt f0 "LENGTH") "KeyError: LENGTH"
        let fullW ← optToE (w.xmlInt fullXmlFile "WIDTH") "KeyError: WIDTH"
        let wd ← optToE (w.attrInt f0 "WIDTH") "KeyError: WIDTH"
        .ok (setVal (setVal m "ALOOKS" (.int (Int.tdiv fullL l)))
          "RLOOKS" (.int (Int.tdiv fullW wd)))
      else multilookLoop w geom_dir rest m

/-- The `for key in ['ALOOKS', 'RLOOKS']` default loop (lines 234-236):
missing look numbers default to the integer `1`. -/
def multilookDefaults (m : Meta) : Meta :=
  let m1 := match getVal m "ALOOKS" with
    | none => setVal m "ALOOKS" (.int 1)
    | some _ => m
  match getVal m1 "RLOOKS" with
  | none => setVal m1 "RLOOKS" (.int 1)
  | some _ => m1

/-- Lines 238-241: the `NCORRLOOKS` coherence-calibration formula,
`RLOOKS * ALOOKS / (rgfact * azfact)` with
`rgfact = rangeResolution / rangePixelSize` and
`azfact = azimuthResolution / azimuthPixelSize`, all read from the dict as it
stands at this point. -/
def ncorrStep (m : Meta) : Except String Meta := do
  let rr ← asR (getVal m "rangeResolution")
  let rp ← asR (getVal m "rangePixelSize")
  let ar ← asR (getVal m "azimuthResolution")
  let ap ← asR (getVal m "azimuthPixelSize")
  let rl ← asR (getVal m "RLOOKS")
  let al ← asR (getVal m "ALOOKS")
  .ok (setVal m "NCORRLOOKS" (.real (rl * al / ((rr / rp) * (ar / ap)))))

/-- `extract_multilook_number` (lines 221-242): find the multilook factors,
default them to `1`, and derive `NCORRLOOKS` from the resolution-to-pixel-size
ratios of the metadata passed in. -/
def extract_multilook_number (w : World) (geom_dir : Path) (m : Meta) :
    Except String Meta := do
  let m ← multilookLoop w geom_dir ["hgt", "lat", "lon", "los"] m
  ncorrStep (multilookDefaults m)

/-- `get_nonzero_row_number` (lines 248-258): first and last all-nonzero row,
offset by the buffer of 2; `-1 - 2` and Python negative indexing are kept as
integers.  An `IndexError` is raised when no row qualifies. -/
def get_nonzero_row_number (data : List (List ℝ)) : Except String (ℤ × ℤ) :=
  if data.all (fun row => row.all (fun x => decide (x ≠ 0))) then .ok (2, -3)
  else
    let ncols := (data.headD []).length
    let row_idx := (List.range data.length).filter
      (fun i => (data.getD i []).countP (fun x => decide (x ≠ 0)) == ncols)
    match row_idx.head?, row_idx.getLast? with
    | some i0, some i1 => .ok ((i0 : ℤ) + 2, (i1 : ℤ) - 2)
    | _, _ => .error "IndexError: index 0 is out of bounds"

/-- 2-D indexing `data[r, c]` with Python index semantics. -/
def pyCell (data : List (List ℝ)) (r c : ℤ) : Except String ℝ := do
  let row ← pyIdx data r
  pyIdx row c

/-- Lines 276-282: `LAT_REF1..4` from the corner pixels of the `lat` raster,
stringified. -/
def latBlock (w : World) (m : Meta) (geom_file : Path) : Except String Meta := do
  let rr ← get_nonzero_row_number (w.raster geom_file none)
  let v1 ← pyCell (w.raster geom_file none) rr.1 0
  let v2 ← pyCell (w.raster geom_file none) rr.1 (-1)
  let v3 ← pyCell (w.raster geom_file none) rr.2 0
  let v4 ← pyCell (w.raster geom_file none) rr.2 (-1)
  .ok (setVal (setVal (setVal (setVal m
    "LAT_REF1" (.str (w.fstr v1)))
    "LAT_REF2" (.str (w.fstr v2)))
    "LAT_REF3" (.str (w.fstr v3)))
    "LAT_REF4" (.str (w.fstr v4)))

/-- Lines 284-290: `LON_REF1..4` from the corner pixels of the `lon`
raster. -/
def lonBlock (w : World) (m : Meta) (geom_file : Path) : Except String Meta := do
  let rr ← get_nonzero_row_number (w.raster geom_file none)
  let v1 ← pyCell (w.raster geom_file none) rr.1 0
  let v2 ← pyCell (w.raster geom_file none) rr.1 (-1)
  let v3 ← pyCell (w.raster geom_file none) rr.2 0
  let v4 ← pyCell (w.raster geom_file none) rr.2 (-1)
  .ok (setVal (setVal (setVal (setVal m
    "LON_REF1" (.str (w.fstr v1)))
    "LON_REF2" (.str (w.fstr v2)))
    "LON_REF3" (.str (w.fstr v3)))
    "LON_REF4" (.str (w.fstr v4)))

/-- The heading value computed by lines 293-298: the `az` band is read, zero
pixels are masked out (`data[data == 0.] = np.nan`), `np.nanmean` averages the
remaining pixels, and the isce azimuth angle is converted to a roipac orbit
heading wrapped with `np.round(head_angle / 360.) * 360.`. -/
def losHeading (w : World) (geom_file : Path) : ℝ :=
  let nz := (w.raster geom_file (some "az")).flatten.filter
    (fun x => decide (x ≠ 0))
  let az_angle := npMean nz
  let h0 := -(270 + az_angle)
  h0 - (npRound (h0 / 360) : ℝ) * 360

/-- Lines 292-299: the heading angle from the `los` raster's `az` band:
zero pixels are masked out (`data[data == 0.] = np.nan`), `np.nanmean` takes
the mean of the remaining pixels, and the isce azimuth angle is converted to
a roipac orbit heading wrapped with `np.round(h / 360) * 360`. -/
def losBlock (w : World) (m : Meta) (geom_file : Path) : Except String Meta :=
  .ok (setVal m "HEADING" (.str (w.fstr (losHeading w geom_file))))

/-- The body of the `for geom_file in geom_files` loop of
`extract_geometry_metadata` (lines 275-299), keyed on substring containment
in the file's basename exactly as the source tests `'lat' in
os.path.basename(geom_file)` etc. -/
def geomFileUpdate (w : World) (m : Meta) (geom_file : Path) :
    Except String Meta :=
  (if strContains (basename geom_file) "lat" then latBlock w m geom_file
    else .ok m) >>= fun m =>
  (if strContains (basename geom_file) "lon" then lonBlock w m geom_file
    else .ok m) >>= fun m =>
  (if strContains (basename geom_file) "los" then losBlock w m geom_file
    else .ok m)

/-- `extract_geometry_metadata` (lines 245-300): multilook factors and
`NCORRLOOKS` first, then the pixel sizes are scaled by the look numbers, then
the per-file loop adds corner coordinates and the heading. -/
def extract_geometry_metadata (w : World) (geom_dir : Path) (m : Meta) :
    Except String Meta := do
  let geom_files := (["hgt", "lat", "lon", "los"].map
    (fun i => geom_dir ++ [i ++ ".rdr"])).filter (fun p => decide (p ∈ w.files))
  let m ← extract_multilook_number w geom_dir m
  let rp ← asR (getVal m "rangePixelSize")
  let rl ← asR (getVal m "RLOOKS")
  let m := setVal m "rangePixelSize" (.real (rp * rl))
  let ap ← asR (getVal m "azimuthPixelSize")
  let al ← asR (getVal m "ALOOKS")
  let m := setVal m "azimuthPixelSize" (.real (ap * al))
  geom_files.foldlM (geomFileUpdate w) m

/-- A concrete world for witnesses: a geometry directory `geom` holding a
multilooked `hgt.rdr` (2x2 looks against its `.full.xml`). -/
def geomW : World where
  files := [["geom", "hgt.rdr"], ["geom", "hgt.rdr.full.xml"]]
  mtime := fun _ => 0
  rscData := fun _ => []
  loadProd := fun _ => .error "not a product"
  shelfFrame := fun _ => .error "not a shelve"
  xmlInt := fun p k =>
    if p = ["geom", "hgt.rdr.full.xml"] ∧ (k = "LENGTH" ∨ k = "WIDTH")
    then some 4 else none
  attrInt := fun p k =>
    if p = ["geom", "hgt.rdr"] ∧ (k = "LENGTH" ∨ k = "WIDTH")
    then some 2 else none
  attrMeta := fun _ => []
  raster := fun _ _ => []
  textLines := fun _ => []
  templNum := fun _ _ => none
  pyFloat := fun _ => .error "ValueError"
  fstr := fun _ => "f"
  dtStr := fun _ => "d"

/-- Concrete input metadata: the four resolution/pixel-size keys produced by
the scene-metadata extraction step. -/
def geomM : Meta :=
  [("rangeResolution", .real 4), ("rangePixelSize", .real 1),
   ("azimuthResolution", .real 6), ("azimuthPixelSize", .real 1)]

/-- The dict produced by running `extract_geometry_metadata` once on
`geomM` in `geomW`. -/
def geomM1 : Meta :=
  [("rangeResolution", .real 4),
   ("rangePixelSize", .real (1 * ((2 : ℤ) : ℝ))),
   ("azimuthResolution", .real 6),
   ("azimuthPixelSize", .real (1 * ((2 : ℤ) : ℝ))),
   ("ALOOKS", .int 2), ("RLOOKS", .int 2),
   ("NCORRLOOKS", .real (((2 : ℤ) : ℝ) * ((2 : ℤ) : ℝ) / (4 / 1 * (6 / 1))))]

/-- The dict produced by running `extract_geometry_metadata` a second time,
on `geomM1`: the pixel sizes are multiplied by the look numbers again and
`NCORRLOOKS` changes. -/
def geomM2 : Meta :=
  [("rangeResolution", .real 4),
   ("rangePixelSize", .real (1 * ((2 : ℤ) : ℝ) * ((2 : ℤ) : ℝ))),
   ("azimuthResolution", .real 6),
   ("azimuthPixelSize", .real (1 * ((2 : ℤ) : ℝ) * ((2 : ℤ) : ℝ))),
   ("ALOOKS", .int 2), ("RLOOKS", .int 2),
   ("NCORRLOOKS", .real (((2 : ℤ) : ℝ) * ((2 : ℤ) : ℝ) /
     (4 / (1 * ((2 : ℤ) : ℝ)) * (6 / (1 * ((2 : ℤ) : ℝ))))))]

/-- A concrete world for the C6 witness: a geometry directory holding only
`los.rdr`, whose `az` band is the constant raster `[[90, 90]]`. -/
def losW : World where
  files := [["geom", "los.rdr"]]
  mtime := fun _ => 0
  rscData := fun _ => []
  loadProd := fun _ => .error "not a product"
  shelfFrame := fun _ => .error "not a shelve"
  xmlInt := fun _ _ => none
  attrInt := fun _ _ => none
  attrMeta := fun _ => []
  raster := fun _ _ => [[90, 90]]
  textLines := fun _ => []
  templNum := fun _ _ => none
  pyFloat := fun _ => .error "ValueError"
  fstr := fun _ => "f"
  dtStr := fun _ => "d"

/-! ### `extract_tops_metadata` and `extract_stripmap_metadata` -/

/-- `np.linalg.norm` of a 3-vector: the Euclidean norm. -/
def linalg_norm (v : Vec3) : ℝ := Real.sqrt (v.x ^ 2 + v.y ^ 2 + v.z ^ 2)

def SPEED_OF_LIGHT : ℝ := 299792458

/-- One row of the `TOPS_RESOLUTION` table (lines 22-26). -/
structure TopsRes where
  rangeResolution : ℝ
  azimuthResolution : ℝ
  rangePixelSize : ℝ
  azimuthPixelSize : ℝ

/-- The `TOPS_RESOLUTION` lookup table (lines 22-26); an unknown key is a
`KeyError`. -/
def TOPS_RESOLUTION (k : String) : Option TopsRes :=
  if k = "IW1" then some ⟨27 / 10, 225 / 10, 23 / 10, 141 / 10⟩
  else if k = "IW2" then some ⟨31 / 10, 227 / 10, 23 / 10, 141 / 10⟩
  else if k = "IW3" then some ⟨35 / 10, 226 / 10, 23 / 10, 141 / 10⟩
  else none

/-- Python `sorted` on integers. -/
def sortInts (l : List ℤ) : List ℤ := l.insertionSort (fun a b => a ≤ b)

/-- Lines 132-135: the subswath key, `IW2` unless the file is named
`IW<n>.xml`. -/
def topsIW (xml_file : Path) : String :=
  if pyStartsWith (basename xml_file) "IW" then stripExt (basename xml_file)
  else "IW2"

/-- `load_product` expected to yield a TOPS product (an `AttributeError`
would follow in Python when a non-TOPS object is returned). -/
def loadTops (w : World) (f : Path) : Except String TopsProduct :=
  match w.loadProd f with
  | .ok (.tops p) => .ok p
  | .ok (.strip _) => .error "AttributeError: bursts"
  | .error e => .error e

/-- Lines 149-152: first-burst swath numbers of every sibling `IW*.xml`
product. -/
def topsSwathNumbers (w : World) (xml_files : List Path) :
    Except String (List ℤ) :=
  xml_files.mapM (fun f =>
    loadTops w f >>= fun p => optToE p.bursts.head? "IndexError: bursts")
  >>= fun ps => .ok (ps.map Burst.swathNumber)

/-- The dict built by `extract_tops_metadata` (lines 108-156): one entry
per `metadata[...] = ...` assignment, in assignment order (all keys are
distinct, so the sequence of in-place dict assignments starting from `{}`
is exactly this list; the multi-subswath case of lines 149-152 re-assigns
`swathNumber` in place, keeping its slot). -/
def topsBuild (env : Ellipsoid) (obj : TopsProduct)
    (burst burstEnd : Burst) (res : TopsRes) (swaths : Option (List ℤ)) :
    Meta :=
  [("prf", .real burst.prf),
   ("startUTC", .dt burst.burstStartUTC),
   ("stopUTC", .dt burstEnd.burstStopUTC),
   ("radarWavelength", .real burst.radarWavelength),
   ("startingRange", .real burst.startingRange),
   ("passDirection", .str burst.passDirection),
   ("polarization", .str burst.polarization),
   ("trackNumber", .int burst.trackNumber),
   ("orbitNumber", .int burst.orbitNumber),
   ("CENTER_LINE_UTC", .real
     ((burst.burstStartUTC.hour : ℝ) * 3600 +
       (burst.burstStartUTC.minute : ℝ) * 60 +
       (burst.burstStartUTC.second : ℝ))),
   ("azimuthPixelSize", .real (linalg_norm
     (burst.orbit.interpolateOrbit burst.sensingMid).velocity *
       burst.azimuthTimeInterval)),
   ("rangePixelSize", .real burst.rangePixelSize),
   ("azimuthResolution", .real res.azimuthResolution),
   ("rangeResolution", .real res.rangeResolution),
   ("earthRadius", .real (env.pegRadCur
     (env.xyz_to_llh (burst.orbit.interpolateOrbit burst.sensingMid).position).1
     (env.xyz_to_llh (burst.orbit.interpolateOrbit burst.sensingMid).position).2.1
     (burst.orbit.getENUHeading burst.sensingMid))),
   ("altitude", .real
     (env.xyz_to_llh (burst.orbit.interpolateOrbit burst.sensingMid).position).2.2),
   ("beam_mode", .str "IW"),
   ("swathNumber", match swaths with
     | some sn => .str (String.join ((sortInts sn).map (fun i => toString i)))
     | none => .int burst.swathNumber),
   ("firstFrameNumber", .int (pyTrunc (2 / 10 *
     (burst.burstStartUTC.absSeconds - obj.ascendingNodeTime.absSeconds)))),
   ("lastFrameNumber", .int (pyTrunc (2 / 10 *
     (burstEnd.burstStopUTC.absSeconds - obj.ascendingNodeTime.absSeconds))))]

/-- `extract_tops_metadata` (lines 96-157). -/
def extract_tops_metadata (w : World) (env : Ellipsoid) (xml_file : Path) :
    Except String (Meta × Burst) :=
  loadTops w xml_file >>= fun obj =>
  optToE obj.bursts.head? "IndexError: bursts" >>= fun burst =>
  optToE obj.bursts.getLast? "IndexError: bursts" >>= fun burstEnd =>
  optToE (TOPS_RESOLUTION (topsIW xml_file)) "KeyError: TOPS_RESOLUTION"
    >>= fun res =>
  (if 1 < (globDir w.files (dirname xml_file) "IW*.xml").length then
    topsSwathNumbers w (globDir w.files (dirname xml_file) "IW*.xml") >>=
      fun sn => .ok (some sn)
   else .ok none) >>= fun swaths =>
  .ok (topsBuild env obj burst burstEnd res swaths, burst)

/-- Lines 170-179: obtain the stripmap frame, from the shelve database for
`data.dat`, from `load_product` for an `.xml` file, `ValueError`
otherwise. -/
def loadStripFrame (w : World) (meta_file : Path) : Except String Frame :=
  if basename meta_file = "data.dat" then
    w.shelfFrame (dirname meta_file ++ [stripExt (basename meta_file)])
  else if pyEndsWith (basename meta_file) ".xml" then
    match w.loadProd meta_file with
    | .ok (.strip f) => .ok f
    | .ok (.tops _) => .error "AttributeError: frame"
    | .error e => .error e
  else .error "ValueError: un-recognized isce/stripmap metadata file"

/-- The dict built by `extract_stripmap_metadata` (lines 181-218): one
entry per assignment, in assignment order (all keys distinct; the
`polarization` normalization of lines 187-189 — `str()`, drop `/`, and
strip a Python-bytes `b'..'` wrapper — happens before the value lands). -/
def stripBuild (env : Ellipsoid) (frame : Frame) : Meta :=
  [("prf", .real frame.PRF),
   ("startUTC", .dt frame.sensingStart),
   ("stopUTC", .dt frame.sensingStop),
   ("radarWavelength", .real frame.radarWavelegth),
   ("startingRange", .real frame.startingRange),
   ("polarization", .str
     (if pyStartsWith (pyReplace frame.polarization "/" "")
         (String.mk ['b', Char.ofNat 39])
      then pySlice (pyReplace frame.polarization "/" "") 2 4
      else pyReplace frame.polarization "/" "")),
   ("trackNumber", .int frame.trackNumber),
   ("orbitNumber", .int frame.orbitNumber),
   ("CENTER_LINE_UTC", .real
     ((frame.sensingStart.hour : ℝ) * 3600 +
       (frame.sensingStart.minute : ℝ) * 60 +
       (frame.sensingStart.second : ℝ))),
   ("azimuthResolution", .real (frame.platform.antennaLength / 2)),
   ("azimuthPixelSize", .real (linalg_norm
     (frame.orbit.interpolateOrbit frame.sensingMid).velocity / frame.PRF)),
   ("rangeResolution", .real |SPEED_OF_LIGHT /
     (2 * (frame.instrument.pulseLength * frame.instrument.chirpSlope))|),
   ("rangePixelSize", .real frame.instrument.rangePixelSize),
   ("earthRadius", .real (env.pegRadCur
     (env.xyz_to_llh (frame.orbit.interpolateOrbit frame.sensingMid).position).1
     (env.xyz_to_llh (frame.orbit.interpolateOrbit frame.sensingMid).position).2.1
     (frame.orbit.getENUHeading frame.sensingMid))),
   ("altitude", .real
     (env.xyz_to_llh (frame.orbit.interpolateOrbit frame.sensingMid).position).2.2),
   ("beam_mode", .str "SM")]

/-- `extract_stripmap_metadata` (lines 160-218). -/
def extract_stripmap_metadata (w : World) (env : Ellipsoid)
    (meta_file : Path) : Except String (Meta × Frame) :=
  loadStripFrame w meta_file >>= fun frame =>
  .ok (stripBuild env frame, frame)

/-! ### `extract_isce_metadata` -/

/-- Modelled from the spec: `ut.run_or_skip` (from `mintpy.utils.utils`,
not under `src/`) implements the update-skip optimization — the sidecar
write is skipped when the output file already exists and is up to date with
respect to the input file, freshness judged by file modification times. -/
def run_or_skip (w : World) (out_file in_file : Path) : String :=
  if out_file ∈ w.files ∧ w.mtime in_file < w.mtime out_file then "skip"
  else "run"

/-- Modelled from the spec: `readfile.standardize_metadata` (from
`mintpy.utils.readfile`, not under `src/`).  The spec describes the
serialized output only as flat string-valued key/value pairs; the
key-standardization pass is not specified further and is modelled as the
identity on the key/value map. -/
def standardize_metadata (m : Meta) : Meta := m

/-- Lines 335-336: `metadata[key] = str(value)` for every entry. -/
def pyStrConvert (w : World) (m : Meta) : Meta :=
  m.map (fun kv => (kv.1, Value.str (pyStrV w kv.2)))

/-- The non-skip body of `extract_isce_metadata` (lines 317-343):
detect the processor, extract scene metadata, optionally merge geometry
metadata, add the common keys, stringify every value, standardize, and
emit the `.rsc` write.  The returned list holds the `write_roipac_rsc`
serialization actions performed (modelled from the spec: serialization of
the key/value map into the sidecar file). -/
def extract_isce_run (w : World) (env : Ellipsoid) (meta_file : Path)
    (geom_dir : Option Path) (rsc_file : Path) :
    Except String (Meta × List (Path × Meta)) :=
  get_processor w meta_file >>= fun processor =>
  (if processor = "tops"
   then (extract_tops_metadata w env meta_file).map Prod.fst
   else (extract_stripmap_metadata w env meta_file).map Prod.fst)
  >>= fun metadata =>
  (match geom_dir with
   | some g => extract_geometry_metadata w g metadata
   | none => .ok metadata) >>= fun metadata =>
  .ok (standardize_metadata (pyStrConvert w
        (setVal (setVal metadata "PROCESSOR" (.str "isce"))
          "ANTENNA_SIDE" (.str "-1"))),
    [(rsc_file, standardize_metadata (pyStrConvert w
        (setVal (setVal metadata "PROCESSOR" (.str "isce"))
          "ANTENNA_SIDE" (.str "-1"))))])

/-- `extract_isce_metadata` (lines 303-343): default the rsc path next to
the metadata file, take the update-skip branch when `update_mode` holds and
the rsc file is current (returning the metadata read back from it, with no
write), otherwise extract and write. -/
def extract_isce_metadata (w : World) (env : Ellipsoid) (meta_file : Path)
    (geom_dir : Option Path) (rsc_file0 : Option Path) (update_mode : Bool) :
    Except String (Meta × List (Path × Meta)) :=
  if update_mode = true ∧
      run_or_skip w (rsc_file0.getD (dirname meta_file ++ ["data.rsc"]))
        meta_file = "skip"
  then .ok (w.rscData (rsc_file0.getD (dirname meta_file ++ ["data.rsc"])), [])
  else extract_isce_run w env meta_file geom_dir
    (rsc_file0.getD (dirname meta_file ++ ["data.rsc"]))

/-- A concrete single-burst TOPS world for witnesses. -/
def dt0 : DateTime := ⟨0, 0, 0, 0⟩

def orb0 : Orbit where
  interpolateOrbit := fun _ => { position := ⟨0, 0, 0⟩, velocity := ⟨0, 0, 5⟩ }
  getENUHeading := fun _ => 0

def b0 : Burst where
  prf := 1
  burstStartUTC := dt0
  burstStopUTC := dt0
  radarWavelength := 1
  startingRange := 1
  passDirection := "ASCENDING"
  polarization := "VV"
  trackNumber := 1
  orbitNumber := 1
  sensingMid := dt0
  azimuthTimeInterval := 2
  rangePixelSize := 1
  swathNumber := 1
  orbit := orb0

def env0 : Ellipsoid where
  xyz_to_llh := fun _ => (0, 0, 0)
  pegRadCur := fun _ _ _ => 6371000

def topsW : World where
  files := [["master", "IW1.xml"]]
  mtime := fun _ => 0
  rscData := fun _ => []
  loadProd := fun p =>
    if p = ["master", "IW1.xml"]
    then .ok (.tops { bursts := [b0], ascendingNodeTime := dt0 })
    else .error "FileNotFoundError"
  shelfFrame := fun _ => .error "not a shelve"
  xmlInt := fun _ _ => none
  attrInt := fun _ _ => none
  attrMeta := fun _ => []
  raster := fun _ _ => []
  textLines := fun _ => []
  templNum := fun _ _ => none
  pyFloat := fun _ => .error "ValueError"
  fstr := fun _ => "f"
  dtStr := fun _ => "d"

def fr0 : Frame where
  PRF := 2
  sensingStart := dt0
  sensingStop := dt0
  sensingMid := dt0
  radarWavelegth := 1
  startingRange := 1
  polarization := "HH/HV"
  trackNumber := 1
  orbitNumber := 1
  orbit := orb0
  platform := ⟨10⟩
  instrument := { pulseLength := 1, chirpSlope := 1, rangePixelSize := 1 }

def stripW : World where
  files := [["masterShelve", "data.dat"]]
  mtime := fun _ => 0
  rscData := fun _ => []
  loadProd := fun _ => .error "not a product"
  shelfFrame := fun p =>
    if p = ["masterShelve", "data"] then .ok fr0 else .error "KeyError: frame"
  xmlInt := fun _ _ => none
  attrInt := fun _ _ => none
  attrMeta := fun _ => []
  raster := fun _ _ => []
  textLines := fun _ => []
  templNum := fun _ _ => none
  pyFloat := fun _ => .error "ValueError"
  fstr := fun _ => "f"
  dtStr := fun _ => "d"

/-- A world with a current rsc sidecar for the C1 witness. -/
def rscW : World where
  files := [["d", "m.xml"], ["d", "data.rsc"]]
  mtime := fun p => if p = ["d", "data.rsc"] then 2 else 1
  rscData := fun _ => [("PROCESSOR", .str "isce")]
  loadProd := fun _ => .error "not a product"
  shelfFrame := fun _ => .error "not a shelve"
  xmlInt := fun _ _ => none
  attrInt := fun _ _ => none
  attrMeta := fun _ => []
  raster := fun _ _ => []
  textLines := fun _ => []
  templNum := fun _ _ => none
  pyFloat := fun _ => .error "ValueError"
  fstr := fun _ => "f"
  dtStr := fun _ => "d"

/-! ### Baselines (`read_baseline_timeseries`) -/

/-- A baseline dictionary: date string to `[bperp_top, bperp_bottom]`. -/
abbrev BDict := List (String × (ℝ × ℝ))

def setB : BDict → String → (ℝ × ℝ) → BDict
  | [], k, v => [(k, v)]
  | (k', v') :: rest, k, v =>
    if k' = k then (k, v) :: rest else (k', v') :: setB rest k v

def getB : BDict → String → Option (ℝ × ℝ)
  | [], _ => none
  | (k', v') :: rest, k => if k' = k then some v' else getB rest k

/-- Lines 369-374 of `read_tops_baseline`: collect `float(l[1])` of every
line whose `split(":")` head is `Bperp (average)`. -/
def topsBperps (w : World) (baseline_file : Path) : Except String (List ℝ) :=
  (w.textLines baseline_file).foldlM (fun acc line =>
    if (pySplit line ":").headD "" = "Bperp (average)" then
      pyIdx (pySplit line ":") 1 >>= fun s =>
      w.pyFloat s >>= fun v => .ok (acc ++ [v])
    else .ok acc) []

/-- `read_tops_baseline` (lines 368-377): both components are the
`np.mean` of the collected `Bperp (average)` values. -/
def read_tops_baseline (w : World) (baseline_file : Path) :
    Except String (ℝ × ℝ) :=
  topsBperps w baseline_file >>= fun bperps =>
  .ok (npMean bperps, npMean bperps)

/-- `read_stripmap_baseline` (lines 380-384); `readfile.read_template` is a
repository utility outside `src/`, modelled from the spec as the parsed
numeric key/value map `templNum`. -/
def read_stripmap_baseline (w : World) (baseline_file : Path) :
    Except String (ℝ × ℝ) :=
  optToE (w.templNum baseline_file "PERP_BASELINE_TOP")
    "KeyError: PERP_BASELINE_TOP" >>= fun t =>
  optToE (w.templNum baseline_file "PERP_BASELINE_BOTTOM")
    "KeyError: PERP_BASELINE_BOTTOM" >>= fun b =>
  .ok (t, b)

/-- The first-date token of a baseline file name:
`os.path.basename(i).split('_')[0]` (line 412). -/
def date1Of (p : Path) : String := (pySplit (basename p) "_").headD ""

/-- The date tokens of a baseline file name:
`os.path.basename(bFile).split('.txt')[0].split('_')` (line 419). -/
def datesOf (p : Path) : List String :=
  pySplit ((pySplit (basename p) ".txt").headD "") "_"

/-- Modelled from the spec: `ut.most_common` (from `mintpy.utils.utils`,
not under `src/`): the most frequently occurring element of the list, the
earliest such element on ties. -/
def most_common (l : List String) : String :=
  match l with
  | [] => ""
  | x :: _ => l.foldl (fun best y => if l.count best < l.count y then y
      else best) x

/-- The `for bFile in bFiles` loop of `read_baseline_timeseries` (lines
417-423), also returning the loop variable `dates` left behind by the last
iteration (Python leaks it to line 424). -/
def bLoop (w : World) (proc : String) :
    List Path → BDict → Option (List String) →
    Except String (BDict × Option (List String))
  | [], acc, last => .ok (acc, last)
  | f :: rest, acc, _ =>
    (if proc = "tops" then read_tops_baseline w f
     else read_stripmap_baseline w f) >>= fun v =>
    pyIdx (datesOf f) 1 >>= fun key =>
    bLoop w proc rest (setB acc key v) (some (datesOf f))

/-- `read_baseline_timeseries` (lines 387-425). -/
def read_baseline_timeseries (w : World) (baseline_dir : Path)
    (processor : String) : Except String (Option BDict) :=
  (if processor = "tops" then
    .ok (sortPaths (glob2 w.files baseline_dir "*.txt"))
   else if processor = "stripmap" then
    .ok (sortPaths (globDir w.files baseline_dir "*.txt"))
   else .error "ValueError: Un-recognized ISCE stack processor")
  >>= fun bFiles =>
  if bFiles = [] then .ok none
  else
    bLoop w processor
      (bFiles.filter (fun p => date1Of p == most_common (bFiles.map date1Of)))
      [] none >>= fun bl =>
    match bl.2 with
    | none => .error "UnboundLocalError: dates"
    | some dates =>
      pyIdx dates 0 >>= fun d0 => .ok (some (setB bl.1 d0 (0, 0)))

/-- The sorted baseline file list of lines 400-403: `*/*.txt` one level
below `baseline_dir` for `tops`, `*.txt` directly in it for `stripmap`. -/
def baselineFiles (w : World) (baseline_dir : Path) (processor : String) :
    List Path :=
  if processor = "tops" then sortPaths (glob2 w.files baseline_dir "*.txt")
  else sortPaths (globDir w.files baseline_dir "*.txt")

/-! ### `add_ifgram_metadata`, `prepare_stack`, `prepare_geometry`, `main` -/

/-- `add_ifgram_metadata` (lines 346-364): copy the input metadata, add
`DATE12` from the two date tokens (`dates[i][2:]` drops the century), and,
when a baseline dict is given, the perpendicular-baseline differences. -/
def add_ifgram_metadata (w : World) (metadata_in : Meta)
    (dates : List String) (baseline_dict : BDict) : Except String Meta :=
  pyIdx dates 0 >>= fun d0 =>
  pyIdx dates 1 >>= fun d1 =>
  (match baseline_dict with
   | [] => .ok (setVal (updateMeta [] metadata_in) "DATE12"
       (.str (String.mk (d0.toList.drop 2) ++ "-" ++
         String.mk (d1.toList.drop 2))))
   | _ :: _ =>
     optToE (getB baseline_dict d1) "KeyError: baseline date2" >>= fun b1 =>
     optToE (getB baseline_dict d0) "KeyError: baseline date1" >>= fun b0 =>
     .ok (setVal (setVal (setVal (updateMeta [] metadata_in) "DATE12"
         (.str (String.mk (d0.toList.drop 2) ++ "-" ++
           String.mk (d1.toList.drop 2))))
       "P_BASELINE_TOP_HDR" (.str (w.fstr (b1.1 - b0.1))))
       "P_BASELINE_BOTTOM_HDR" (.str (w.fstr (b1.2 - b0.2)))))

/-- `prepare_stack` (lines 451-475): glob `inputDir/*/filePattern`, sorted;
`FileNotFoundError` when empty; otherwise one `.rsc` serialization per
matched file, its metadata assembled by `read_attribute`, the common
metadata, and `add_ifgram_metadata` with the dates taken from the parent
directory name.  (`writefile.write_roipac_rsc` is a repository utility
outside `src/`, modelled from the spec as the emitted path/contents pair;
its own `update_mode` freshness shortcut is not modelled.) -/
def prepare_stack (w : World) (inputDir : Path) (filePattern : String)
    (metadata : Meta) (baseline_dict : BDict) (update_mode : Bool) :
    Except String (List (Path × Meta)) :=
  if sortPaths (glob2 w.files inputDir filePattern) = [] then
    .error "FileNotFoundError: no file found in pattern"
  else
    (sortPaths (glob2 w.files inputDir filePattern)).mapM (fun f =>
      add_ifgram_metadata w (updateMeta (w.attrMeta f) metadata)
        (pySplit (basename (dirname f)) "_") baseline_dict >>= fun ifg =>
      .ok (withLast f (fun b => b ++ ".rsc"), ifg))

/-- `prepare_geometry` (lines 429-448): one `.rsc` serialization per
existing geometry file, carrying `read_attribute`'s dict updated with the
common metadata; returns the (unchanged) common metadata. -/
def prepare_geometry (w : World) (geom_dir : Path) (metadata : Meta)
    (update_mode : Bool) : Meta × List (Path × Meta) :=
  (metadata,
    ((["hgt", "lat", "lon", "los", "shadowMask", "incLocal"].map
      (fun i => geom_dir ++ [i ++ ".rdr"])).filter
        (fun p => decide (p ∈ w.files))).map
      (fun f => (withLast f (fun b => b ++ ".rsc"),
        updateMeta (w.attrMeta f) metadata)))

/-- The parsed command-line inputs. -/
structure Inps where
  ifgramDir : Option Path
  ifgramFiles : List String
  metaFile : Option Path
  baselineDir : Option Path
  geometryDir : Option Path
  update_mode : Bool

/-- `cmd_line_parse` (lines 59-65): at least one of `-i`, `-g`, `-m` is
required (argparse itself is external; only the explicit validation is
modelled). -/
def cmd_line_parse (inps : Inps) : Except String Inps :=
  if inps.ifgramDir = none ∧ inps.geometryDir = none ∧ inps.metaFile = none
  then .error "SystemExit: at least one of the arguments -i, -g, -m required"
  else .ok inps

/-- Line 481: `get_processor(inps.metaFile)` — when `metaFile` is `None`,
`os.path.dirname(None)` raises `TypeError` before anything else runs. -/
def getProcessorOpt (w : World) (mf : Option Path) : Except String String :=
  match mf with
  | none => .error "TypeError: expected str, bytes or os.PathLike object"
  | some p => get_processor w p

/-- The `for namePattern in inps.ifgramFiles` loop of `main` (lines
502-507). -/
def stackLoop (w : World) (dir : Path) (pats : List String) (md : Meta)
    (bd : BDict) (um : Bool) : Except String (List (Path × Meta)) :=
  match pats with
  | [] => .ok []
  | p :: rest =>
    prepare_stack w dir p md bd um >>= fun ws =>
    stackLoop w dir rest md bd um >>= fun ws2 => .ok (ws ++ ws2)

/-- The body of `main` after the processor detection (lines 483-508). -/
def mainBody (w : World) (env : Ellipsoid) (inps : Inps)
    (processor : String) : Except String (List (Path × Meta)) :=
  (match inps.metaFile with
   | some mf =>
     extract_isce_metadata w env mf inps.geometryDir none inps.update_mode
   | none => .ok ([], [])) >>= fun mdws =>
  (match inps.geometryDir with
   | some g => .ok (prepare_geometry w g mdws.1 inps.update_mode)
   | none => .ok (mdws.1, [])) >>= fun mdws2 =>
  (match inps.baselineDir with
   | some b => (read_baseline_timeseries w b processor).map
       (fun o => o.getD [])
   | none => .ok []) >>= fun bd =>
  (match inps.ifgramDir with
   | some d =>
     if inps.ifgramFiles ≠ [] then
       stackLoop w d inps.ifgramFiles mdws2.1 bd inps.update_mode
     else .ok []
   | none => .ok []) >>= fun ws3 =>
  .ok (mdws.2 ++ mdws2.2 ++ ws3)

/-- `main` (lines 479-509): parse, detect the processor (unconditionally,
line 481), then run the pipeline.  The result pairs the `.rsc`
serializations performed with the final status; when a step raises, the
model reports the exception (serializations already performed by earlier
steps are not tracked — no claim depends on them, and the `TypeError` of a
missing `-m` fires before any step). -/
def mainRun (w : World) (env : Ellipsoid) (inps : Inps) :
    List (Path × Meta) × Except String Unit :=
  match getProcessorOpt w inps.metaFile with
  | .error e => ([], .error e)
  | .ok processor =>
    match mainBody w env inps processor with
    | .error e => ([], .error e)
    | .ok ws => (ws, .ok ())

def main (w : World) (env : Ellipsoid) (iargs : Inps) :
    List (Path × Meta) × Except String Unit :=
  match cmd_line_parse iargs with
  | .error e => ([], .error e)
  | .ok inps => mainRun w env inps

/-- A world whose single interferogram sits in a parent directory without
an underscore in its name. -/
def c8w : World where
  files := [["in", "foo", "x.unw"]]
  mtime := fun _ => 0
  rscData := fun _ => []
  loadProd := fun _ => .error "not a product"
  shelfFrame := fun _ => .error "not a shelve"
  xmlInt := fun _ _ => none
  attrInt := fun _ _ => none
  attrMeta := fun _ => []
  raster := fun _ _ => []
  textLines := fun _ => []
  templNum := fun _ _ => none
  pyFloat := fun _ => .error "ValueError"
  fstr := fun _ => "f"
  dtStr := fun _ => "d"

/-- A world with a well-formed stack layout for the C8 witness. -/
def c8w2 : World where
  files := [["in", "A1_B2", "x.unw"]]
  mtime := fun _ => 0
  rscData := fun _ => []
  loadProd := fun _ => .error "not a product"
  shelfFrame := fun _ => .error "not a shelve"
  xmlInt := fun _ _ => none
  attrInt := fun _ _ => none
  attrMeta := fun _ => []
  raster := fun _ _ => []
  textLines := fun _ => []
  templNum := fun _ _ => none
  pyFloat := fun _ => .error "ValueError"
  fstr := fun _ => "f"
  dtStr := fun _ => "d"

/-- A parsed invocation giving only `-g`. -/
def inpsG : Inps where
  ifgramDir := none
  ifgramFiles := ["filt_fine.unw"]
  metaFile := none
  baselineDir := none
  geometryDir := some ["geom"]
  update_mode := true

/-- A world with one tops baseline file for the C10 witness. -/
def blW : World where
  files := [["bl", "A", "20141213_20141225.txt"]]
  mtime := fun _ => 0
  rscData := fun _ => []
  loadProd := fun _ => .error "not a product"
  shelfFrame := fun _ => .error "not a shelve"
  xmlInt := fun _ _ => none
  attrInt := fun _ _ => none
  attrMeta := fun _ => []
  raster := fun _ _ => []
  textLines := fun _ => ["Bperp (average): 100"]
  templNum := fun _ _ => none
  pyFloat := fun s => if s = " 100" then .ok 100 else .error "ValueError"
  fstr := fun _ => "f"
  dtStr := fun _ => "d"

/-- A world with one stripmap baseline file for the C10 witness. -/
def blWs : World where
  files := [["bl", "20141213_20141225.txt"]]
  mtime := fun _ => 0
  rscData := fun _ => []
  loadProd := fun _ => .error "not a product"
  shelfFrame := fun _ => .error "not a shelve"
  xmlInt := fun _ _ => none
  attrInt := fun _ _ => none
  attrMeta := fun _ => []
  raster := fun _ _ => []
  textLines := fun _ => []
  templNum := fun _ k => if k = "PERP_BASELINE_TOP" then some 100
    else if k = "PERP_BASELINE_BOTTOM" then some 110 else none
  pyFloat := fun _ => .error "ValueError"
  fstr := fun _ => "f"
  dtStr := fun _ => "d"

/-! ## Verified properties -/

theorem getVal_setVal_self (m : Meta) (k : String) (v : Value) :
    getVal (setVal m k v) k = some v := by
  induction m with
  | nil => simp [setVal, getVal]
  | cons kv rest ih =>
    obtain ⟨k', v'⟩ := kv
    by_cases h : k' = k <;> simp [setVal, getVal, h, ih]

theorem getVal_setVal_ne (m : Meta) (k k' : String) (v : Value) (h : k' ≠ k) :
    getVal (setVal m k v) k' = getVal m k' := by
  induction m with
  | nil => simp [setVal, getVal, Ne.symm h]
  | cons kv rest ih =>
    obtain ⟨k₀, v₀⟩ := kv
    by_cases h0 : k₀ = k
    · subst h0
      simp [setVal, getVal, Ne.symm h]
    · by_cases h1 : k₀ = k' <;> simp [setVal, getVal, h0, h1, h, ih]

theorem setVal_getVal_eq (m : Meta) (k : String) (v : Value)
    (h : getVal m k = some v) : setVal m k v = m := by
  induction m with
  | nil => simp [getVal] at h
  | cons kv rest ih =>
    obtain ⟨k₀, v₀⟩ := kv
    by_cases h0 : k₀ = k
    · subst h0
      simp [getVal] at h
      simp [setVal, h]
    · simp [getVal, h0] at h
      simp [setVal, h0, ih h]

theorem exc_bind_ok {α β : Type} (x : α) (f : α → Except String β) :
    (Except.ok x >>= f) = f x := rfl

theorem exc_bind_err {α β : Type} (e : String) (f : α → Except String β) :
    ((Except.error e : Except String α) >>= f) = .error e := rfl

theorem exc_pure_eq_ok {α : Type} (x : α) :
    (pure x : Except String α) = .ok x := rfl

theorem asR_ok_isSome (o : Option Value) (x : ℝ) (h : asR o = .ok x) :
    ∃ v, o = some v := by
  cases o with
  | none => simp [asR] at h
  | some v => exact ⟨v, rfl⟩

/-- The multilook discovery loop depends only on the world and directory, not
on the metadata dict: it leaves the dict unchanged, or writes a fixed pair
of look numbers, or fails, uniformly in the dict. -/
theorem multilookLoop_shape (w : World) (g : Path) (names : List String) :
    (∀ m, multilookLoop w g names m = .ok m) ∨
    (∃ a r : ℤ, ∀ m, multilookLoop w g names m =
      .ok (setVal (setVal m "ALOOKS" (.int a)) "RLOOKS" (.int r))) ∨
    (∃ e, ∀ m, multilookLoop w g names m = .error e) := by
  induction names with
  | nil =>
    left
    intro m
    rfl
  | cons fb rest ih =>
    rcases hh : (globDir w.files g (fb ++ "*.rdr") ++
        globDir w.files g (fb ++ "*.geo")).head? with _ | f0
    · have hstep : ∀ m : Meta, multilookLoop w g (fb :: rest) m =
          multilookLoop w g rest m := by
        intro m
        simp [multilookLoop, hh]
      rcases ih with h | ⟨a, r, h⟩ | ⟨e, h⟩
      · left
        intro m
        rw [hstep, h]
      · right; left
        exact ⟨a, r, fun m => by rw [hstep, h]⟩
      · right; right
        exact ⟨e, fun m => by rw [hstep, h]⟩
    · by_cases hfull : withLast f0 (fun b => b ++ ".full.xml") ∈ w.files
      · rcases hx1 : w.xmlInt (withLast f0 (fun b => b ++ ".full.xml")) "LENGTH"
          with _ | fl
        · right; right
          refine ⟨"KeyError: LENGTH", fun m => ?_⟩
          simp [multilookLoop, hh, hfull, hx1, optToE, exc_bind_err]
        · rcases hx2 : w.attrInt f0 "LENGTH" with _ | l
          · right; right
            refine ⟨"KeyError: LENGTH", fun m => ?_⟩
            simp [multilookLoop, hh, hfull, hx1, hx2, optToE, exc_bind_ok,
              exc_bind_err]
          · rcases hx3 : w.xmlInt (withLast f0 (fun b => b ++ ".full.xml"))
                "WIDTH" with _ | fw
            · right; right
              refine ⟨"KeyError: WIDTH", fun m => ?_⟩
              simp [multilookLoop, hh, hfull, hx1, hx2, hx3, optToE,
                exc_bind_ok, exc_bind_err]
            · rcases hx4 : w.attrInt f0 "WIDTH" with _ | wd
              · right; right
                refine ⟨"KeyError: WIDTH", fun m => ?_⟩
                simp [multilookLoop, hh, hfull, hx1, hx2, hx3, hx4, optToE,
                  exc_bind_ok, exc_bind_err]
              · right; left
                refine ⟨Int.tdiv fl l, Int.tdiv fw wd, fun m => ?_⟩
                simp [multilookLoop, hh, hfull, hx1, hx2, hx3, hx4, optToE,
                  exc_bind_ok]
      · have hstep : ∀ m : Meta, multilookLoop w g (fb :: rest) m =
            multilookLoop w g rest m := by
          intro m
          simp [multilookLoop, hh, hfull]
        rcases ih with h | ⟨a, r, h⟩ | ⟨e, h⟩
        · left
          intro m
          rw [hstep, h]
        · right; left
          exact ⟨a, r, fun m => by rw [hstep, h]⟩
        · right; right
          exact ⟨e, fun m => by rw [hstep, h]⟩

theorem getVal_multilookDefaults_other (m : Meta) (k : String)
    (h1 : k ≠ "ALOOKS") (h2 : k ≠ "RLOOKS") :
    getVal (multilookDefaults m) k = getVal m k := by
  unfold multilookDefaults
  rcases hA : getVal m "ALOOKS" with _ | vA
  · rcases hR : getVal (setVal m "ALOOKS" (.int 1)) "RLOOKS" with _ | vR <;>
      simp [hA, hR, getVal_setVal_ne _ _ _ _ h1, getVal_setVal_ne _ _ _ _ h2]
  · rcases hR : getVal m "RLOOKS" with _ | vR <;>
      simp [hA, hR, getVal_setVal_ne _ _ _ _ h1, getVal_setVal_ne _ _ _ _ h2]

theorem getVal_multilookDefaults_A (m : Meta) (v : Value)
    (h : getVal m "ALOOKS" = some v) :
    getVal (multilookDefaults m) "ALOOKS" = some v := by
  unfold multilookDefaults
  rcases hR : getVal m "RLOOKS" with _ | vR <;>
    simp [h, hR, getVal_setVal_ne, h]

theorem getVal_multilookDefaults_R (m : Meta) (v : Value)
    (h : getVal m "RLOOKS" = some v) :
    getVal (multilookDefaults m) "RLOOKS" = some v := by
  unfold multilookDefaults
  rcases hA : getVal m "ALOOKS" with _ | vA
  · have : getVal (setVal m "ALOOKS" (.int 1)) "RLOOKS" = some v := by
      rw [getVal_setVal_ne _ _ _ _ (by decide), h]
    simp [hA, this]
  · simp [hA, h]

theorem multilookDefaults_of_some (m : Meta) (vA vR : Value)
    (hA : getVal m "ALOOKS" = some vA) (hR : getVal m "RLOOKS" = some vR) :
    multilookDefaults m = m := by
  unfold multilookDefaults
  simp [hA, hR]

theorem multilookDefaults_of_none (m : Meta)
    (hA : getVal m "ALOOKS" = none) (hR : getVal m "RLOOKS" = none) :
    multilookDefaults m =
      setVal (setVal m "ALOOKS" (.int 1)) "RLOOKS" (.int 1) := by
  unfold multilookDefaults
  have : getVal (setVal m "ALOOKS" (.int 1)) "RLOOKS" = none := by
    rw [getVal_setVal_ne _ _ _ _ (by decide), hR]
  simp [hA, this]

theorem asR_real (x : ℝ) : asR (some (.real x)) = .ok x := rfl

theorem asR_int (n : ℤ) : asR (some (.int n)) = .ok (n : ℝ) := rfl

theorem ncorrStep_values (m : Meta) (rr rp ar ap rl al : ℝ)
    (h1 : asR (getVal m "rangeResolution") = .ok rr)
    (h2 : asR (getVal m "rangePixelSize") = .ok rp)
    (h3 : asR (getVal m "azimuthResolution") = .ok ar)
    (h4 : asR (getVal m "azimuthPixelSize") = .ok ap)
    (h5 : asR (getVal m "RLOOKS") = .ok rl)
    (h6 : asR (getVal m "ALOOKS") = .ok al) :
    ncorrStep m = .ok (setVal m "NCORRLOOKS"
      (.real (rl * al / ((rr / rp) * (ar / ap))))) := by
  unfold ncorrStep
  rw [h1, exc_bind_ok, h2, exc_bind_ok, h3, exc_bind_ok, h4, exc_bind_ok,
    h5, exc_bind_ok, h6, exc_bind_ok]

theorem ncorrStep_ok_char (m m' : Meta) (hok : ncorrStep m = .ok m') :
    ∃ rr rp ar ap rl al : ℝ,
      asR (getVal m "rangeResolution") = .ok rr ∧
      asR (getVal m "rangePixelSize") = .ok rp ∧
      asR (getVal m "azimuthResolution") = .ok ar ∧
      asR (getVal m "azimuthPixelSize") = .ok ap ∧
      asR (getVal m "RLOOKS") = .ok rl ∧
      asR (getVal m "ALOOKS") = .ok al ∧
      m' = setVal m "NCORRLOOKS" (.real (rl * al / ((rr / rp) * (ar / ap)))) := by
  unfold ncorrStep at hok
  rcases hr1 : asR (getVal m "rangeResolution") with e | rr <;> rw [hr1] at hok
  · rw [exc_bind_err] at hok
    exact absurd hok (by simp)
  rw [exc_bind_ok] at hok
  rcases hr2 : asR (getVal m "rangePixelSize") with e | rp <;> rw [hr2] at hok
  · rw [exc_bind_err] at hok
    exact absurd hok (by simp)
  rw [exc_bind_ok] at hok
  rcases hr3 : asR (getVal m "azimuthResolution") with e | ar <;> rw [hr3] at hok
  · rw [exc_bind_err] at hok
    exact absurd hok (by simp)
  rw [exc_bind_ok] at hok
  rcases hr4 : asR (getVal m "azimuthPixelSize") with e | ap <;> rw [hr4] at hok
  · rw [exc_bind_err] at hok
    exact absurd hok (by simp)
  rw [exc_bind_ok] at hok
  rcases hr5 : asR (getVal m "RLOOKS") with e | rl <;> rw [hr5] at hok
  · rw [exc_bind_err] at hok
    exact absurd hok (by simp)
  rw [exc_bind_ok] at hok
  rcases hr6 : asR (getVal m "ALOOKS") with e | al <;> rw [hr6] at hok
  · rw [exc_bind_err] at hok
    exact absurd hok (by simp)
  rw [exc_bind_ok] at hok
  exact ⟨rr, rp, ar, ap, rl, al, rfl, rfl, rfl, rfl, rfl, rfl,
    (Except.ok.inj hok).symm⟩

theorem ncorrStep_defaults_idem (m m' : Meta)
    (hok : ncorrStep (multilookDefaults m) = .ok m') :
    ncorrStep (multilookDefaults m') = .ok m' := by
  obtain ⟨rr, rp, ar, ap, rl, al, h1, h2, h3, h4, h5, h6, hm'⟩ :=
    ncorrStep_ok_char _ _ hok
  obtain ⟨vR, hvR⟩ := asR_ok_isSome _ _ h5
  obtain ⟨vA, hvA⟩ := asR_ok_isSome _ _ h6
  have hA' : getVal m' "ALOOKS" = some vA := by
    rw [hm', getVal_setVal_ne _ _ _ _ (by decide)]
    exact hvA
  have hR' : getVal m' "RLOOKS" = some vR := by
    rw [hm', getVal_setVal_ne _ _ _ _ (by decide)]
    exact hvR
  rw [multilookDefaults_of_some _ _ _ hA' hR']
  have e1 : getVal m' "rangeResolution" =
      getVal (multilookDefaults m) "rangeResolution" := by
    rw [hm', getVal_setVal_ne _ _ _ _ (by decide)]
  have e2 : getVal m' "rangePixelSize" =
      getVal (multilookDefaults m) "rangePixelSize" := by
    rw [hm', getVal_setVal_ne _ _ _ _ (by decide)]
  have e3 : getVal m' "azimuthResolution" =
      getVal (multilookDefaults m) "azimuthResolution" := by
    rw [hm', getVal_setVal_ne _ _ _ _ (by decide)]
  have e4 : getVal m' "azimuthPixelSize" =
      getVal (multilookDefaults m) "azimuthPixelSize" := by
    rw [hm', getVal_setVal_ne _ _ _ _ (by decide)]
  have hstep := ncorrStep_values m' rr rp ar ap rl al
    (by rw [e1]; exact h1) (by rw [e2]; exact h2) (by rw [e3]; exact h3)
    (by rw [e4]; exact h4) (by rw [hR', ← hvR]; exact h5)
    (by rw [hA', ← hvA]; exact h6)
  rw [hstep, setVal_getVal_eq]
  rw [hm', getVal_setVal_self]

theorem extract_multilook_number_ok_char (w : World) (g : Path) (m : Meta)
    (rr rp ar ap : ℝ)
    (h1 : getVal m "rangeResolution" = some (.real rr))
    (h2 : getVal m "rangePixelSize" = some (.real rp))
    (h3 : getVal m "azimuthResolution" = some (.real ar))
    (h4 : getVal m "azimuthPixelSize" = some (.real ap))
    (h5 : getVal m "ALOOKS" = none) (h6 : getVal m "RLOOKS" = none)
    (m₁ : Meta) (hok : extract_multilook_number w g m = .ok m₁) :
    ∃ a r : ℤ, m₁ =
      setVal (setVal (setVal m "ALOOKS" (.int a)) "RLOOKS" (.int r))
        "NCORRLOOKS"
        (.real ((r : ℝ) * (a : ℝ) / ((rr / rp) * (ar / ap)))) := by
  unfold extract_multilook_number at hok
  rcases multilookLoop_shape w g ["hgt", "lat", "lon", "los"]
    with h | ⟨a, r, h⟩ | ⟨e, h⟩
  · rw [h, exc_bind_ok, multilookDefaults_of_none m h5 h6] at hok
    refine ⟨1, 1, ?_⟩
    have hstep := ncorrStep_values
      (setVal (setVal m "ALOOKS" (.int 1)) "RLOOKS" (.int 1))
      rr rp ar ap ((1 : ℤ) : ℝ) ((1 : ℤ) : ℝ)
      (by rw [getVal_setVal_ne _ _ _ _ (by decide),
          getVal_setVal_ne _ _ _ _ (by decide), h1, asR_real])
      (by rw [getVal_setVal_ne _ _ _ _ (by decide),
          getVal_setVal_ne _ _ _ _ (by decide), h2, asR_real])
      (by rw [getVal_setVal_ne _ _ _ _ (by decide),
          getVal_setVal_ne _ _ _ _ (by decide), h3, asR_real])
      (by rw [getVal_setVal_ne _ _ _ _ (by decide),
          getVal_setVal_ne _ _ _ _ (by decide), h4, asR_real])
      (by rw [getVal_setVal_self, asR_int])
      (by rw [getVal_setVal_ne _ _ _ _ (by decide), getVal_setVal_self,
          asR_int])
    rw [hstep] at hok
    exact (Except.ok.inj hok).symm
  · rw [h, exc_bind_ok] at hok
    refine ⟨a, r, ?_⟩
    have hXA : getVal (setVal (setVal m "ALOOKS" (.int a)) "RLOOKS" (.int r))
        "ALOOKS" = some (.int a) := by
      rw [getVal_setVal_ne _ _ _ _ (by decide), getVal_setVal_self]
    have hXR : getVal (setVal (setVal m "ALOOKS" (.int a)) "RLOOKS" (.int r))
        "RLOOKS" = some (.int r) := getVal_setVal_self _ _ _
    rw [multilookDefaults_of_some _ _ _ hXA hXR] at hok
    have hstep := ncorrStep_values
      (setVal (setVal m "ALOOKS" (.int a)) "RLOOKS" (.int r))
      rr rp ar ap ((r : ℤ) : ℝ) ((a : ℤ) : ℝ)
      (by rw [getVal_setVal_ne _ _ _ _ (by decide),
          getVal_setVal_ne _ _ _ _ (by decide), h1, asR_real])
      (by rw [getVal_setVal_ne _ _ _ _ (by decide),
          getVal_setVal_ne _ _ _ _ (by decide), h2, asR_real])
      (by rw [getVal_setVal_ne _ _ _ _ (by decide),
          getVal_setVal_ne _ _ _ _ (by decide), h3, asR_real])
      (by rw [getVal_setVal_ne _ _ _ _ (by decide),
          getVal_setVal_ne _ _ _ _ (by decide), h4, asR_real])
      (by rw [hXR, asR_int]) (by rw [hXA, asR_int])
    rw [hstep] at hok
    exact (Except.ok.inj hok).symm
  · rw [h, exc_bind_err] at hok
    exact absurd hok (by simp)

theorem latBlock_preserves (w : World) (m m' : Meta) (f : Path) (k : String)
    (n1 : k ≠ "LAT_REF1") (n2 : k ≠ "LAT_REF2")
    (n3 : k ≠ "LAT_REF3") (n4 : k ≠ "LAT_REF4")
    (hok : latBlock w m f = .ok m') : getVal m' k = getVal m k := by
  unfold latBlock at hok
  rcases hq : get_nonzero_row_number (w.raster f none) with e | rr0 <;>
    rw [hq] at hok
  · rw [exc_bind_err] at hok
    exact absurd hok (by simp)
  rw [exc_bind_ok] at hok
  rcases h1 : pyCell (w.raster f none) rr0.1 0 with e | v1 <;> rw [h1] at hok
  · rw [exc_bind_err] at hok
    exact absurd hok (by simp)
  rw [exc_bind_ok] at hok
  rcases h2 : pyCell (w.raster f none) rr0.1 (-1) with e | v2 <;> rw [h2] at hok
  · rw [exc_bind_err] at hok
    exact absurd hok (by simp)
  rw [exc_bind_ok] at hok
  rcases h3 : pyCell (w.raster f none) rr0.2 0 with e | v3 <;> rw [h3] at hok
  · rw [exc_bind_err] at hok
    exact absurd hok (by simp)
  rw [exc_bind_ok] at hok
  rcases h4 : pyCell (w.raster f none) rr0.2 (-1) with e | v4 <;> rw [h4] at hok
  · rw [exc_bind_err] at hok
    exact absurd hok (by simp)
  rw [exc_bind_ok] at hok
  rw [← Except.ok.inj hok]
  rw [getVal_setVal_ne _ _ _ _ n4, getVal_setVal_ne _ _ _ _ n3,
    getVal_setVal_ne _ _ _ _ n2, getVal_setVal_ne _ _ _ _ n1]

theorem lonBlock_preserves (w : World) (m m' : Meta) (f : Path) (k : String)
    (n1 : k ≠ "LON_REF1") (n2 : k ≠ "LON_REF2")
    (n3 : k ≠ "LON_REF3") (n4 : k ≠ "LON_REF4")
    (hok : lonBlock w m f = .ok m') : getVal m' k = getVal m k := by
  unfold lonBlock at hok
  rcases hq : get_nonzero_row_number (w.raster f none) with e | rr0 <;>
    rw [hq] at hok
  · rw [exc_bind_err] at hok
    exact absurd hok (by simp)
  rw [exc_bind_ok] at hok
  rcases h1 : pyCell (w.raster f none) rr0.1 0 with e | v1 <;> rw [h1] at hok
  · rw [exc_bind_err] at hok
    exact absurd hok (by simp)
  rw [exc_bind_ok] at hok
  rcases h2 : pyCell (w.raster f none) rr0.1 (-1) with e | v2 <;> rw [h2] at hok
  · rw [exc_bind_err] at hok
    exact absurd hok (by simp)
  rw [exc_bind_ok] at hok
  rcases h3 : pyCell (w.raster f none) rr0.2 0 with e | v3 <;> rw [h3] at hok
  · rw [exc_bind_err] at hok
    exact absurd hok (by simp)
  rw [exc_bind_ok] at hok
  rcases h4 : pyCell (w.raster f none) rr0.2 (-1) with e | v4 <;> rw [h4] at hok
  · rw [exc_bind_err] at hok
    exact absurd hok (by simp)
  rw [exc_bind_ok] at hok
  rw [← Except.ok.inj hok]
  rw [getVal_setVal_ne _ _ _ _ n4, getVal_setVal_ne _ _ _ _ n3,
    getVal_setVal_ne _ _ _ _ n2, getVal_setVal_ne _ _ _ _ n1]

theorem losBlock_preserves (w : World) (m m' : Meta) (f : Path) (k : String)
    (n : k ≠ "HEADING") (hok : losBlock w m f = .ok m') :
    getVal m' k = getVal m k := by
  unfold losBlock at hok
  rw [← Except.ok.inj hok, getVal_setVal_ne _ _ _ _ n]

theorem condBlock_preserves (k : String) (c : Bool) (blk : Except String Meta)
    (m m1 : Meta)
    (hblk : ∀ m1', blk = .ok m1' → getVal m1' k = getVal m k)
    (h : (if c = true then blk else .ok m) = .ok m1) :
    getVal m1 k = getVal m k := by
  cases c
  · simp only [Bool.false_eq_true, if_false] at h
    rw [← Except.ok.inj h]
  · simp only [if_true] at h
    exact hblk m1 h

theorem geomFileUpdate_preserves (w : World) (m m' : Meta) (f : Path)
    (k : String)
    (hk : k ∉ (["LAT_REF1", "LAT_REF2", "LAT_REF3", "LAT_REF4",
      "LON_REF1", "LON_REF2", "LON_REF3", "LON_REF4", "HEADING"] :
        List String))
    (hok : geomFileUpdate w m f = .ok m') :
    getVal m' k = getVal m k := by
  simp only [List.mem_cons, List.not_mem_nil, or_false, not_or] at hk
  obtain ⟨q1, q2, q3, q4, q5, q6, q7, q8, q9⟩ := hk
  unfold geomFileUpdate at hok
  rcases hs1 : (if strContains (basename f) "lat" = true
      then latBlock w m f else .ok m) with e | m1 <;> rw [hs1] at hok
  · rw [exc_bind_err] at hok
    exact absurd hok (by simp)
  rw [exc_bind_ok] at hok
  have step1 : getVal m1 k = getVal m k :=
    condBlock_preserves k _ _ m m1
      (fun m1' hb => latBlock_preserves w m m1' f k q1 q2 q3 q4 hb) hs1
  rcases hs2 : (if strContains (basename f) "lon" = true
      then lonBlock w m1 f else .ok m1) with e | m2 <;> rw [hs2] at hok
  · rw [exc_bind_err] at hok
    exact absurd hok (by simp)
  rw [exc_bind_ok] at hok
  have step2 : getVal m2 k = getVal m1 k :=
    condBlock_preserves k _ _ m1 m2
      (fun m2' hb => lonBlock_preserves w m1 m2' f k q5 q6 q7 q8 hb) hs2
  have step3 : getVal m' k = getVal m2 k :=
    condBlock_preserves k _ _ m2 m'
      (fun m3' hb => losBlock_preserves w m2 m3' f k q9 hb) hok
  rw [step3, step2, step1]

theorem foldlM_geom_preserves (w : World) (fs : List Path) (m m' : Meta)
    (k : String)
    (hk : k ∉ (["LAT_REF1", "LAT_REF2", "LAT_REF3", "LAT_REF4",
      "LON_REF1", "LON_REF2", "LON_REF3", "LON_REF4", "HEADING"] :
        List String))
    (hok : List.foldlM (geomFileUpdate w) m fs = .ok m') :
    getVal m' k = getVal m k := by
  induction fs generalizing m with
  | nil =>
    simp only [List.foldlM_nil] at hok
    rw [← Except.ok.inj hok]
  | cons f fs ih =>
    rw [List.foldlM_cons] at hok
    rcases hstep : geomFileUpdate w m f with e | m1 <;> rw [hstep] at hok
    · rw [exc_bind_err] at hok
      exact absurd hok (by simp)
    · rw [exc_bind_ok] at hok
      rw [ih m1 hok, geomFileUpdate_preserves w m m1 f k hk hstep]

theorem npRound_abs (x : ℝ) : |x - (npRound x : ℝ)| ≤ 1 / 2 := by
  have hf0 : (⌊x⌋ : ℝ) ≤ x := Int.floor_le x
  have hf1 : x < ⌊x⌋ + 1 := Int.lt_floor_add_one x
  unfold npRound
  by_cases h1 : x - ⌊x⌋ < 1 / 2
  · rw [if_pos h1, abs_of_nonneg (by linarith)]
    linarith
  · rw [if_neg h1]
    by_cases h2 : 1 / 2 < x - ⌊x⌋
    · rw [if_pos h2]
      push_cast
      rw [abs_of_nonpos (by linarith)]
      linarith
    · rw [if_neg h2]
      by_cases h3 : ⌊x⌋ % 2 = 0
      · rw [if_pos h3, abs_of_nonneg (by linarith)]
        linarith
      · rw [if_neg h3]
        push_cast
        rw [abs_of_nonpos (by linarith)]
        linarith

theorem extract_geometry_ok_char (w : World) (g : Path) (m : Meta)
    (rr rp ar ap : ℝ)
    (h1 : getVal m "rangeResolution" = some (.real rr))
    (h2 : getVal m "rangePixelSize" = some (.real rp))
    (h3 : getVal m "azimuthResolution" = some (.real ar))
    (h4 : getVal m "azimuthPixelSize" = some (.real ap))
    (h5 : getVal m "ALOOKS" = none) (h6 : getVal m "RLOOKS" = none)
    (m' : Meta) (hok : extract_geometry_metadata w g m = .ok m') :
    ∃ a r : ℤ,
      getVal m' "ALOOKS" = some (.int a) ∧
      getVal m' "RLOOKS" = some (.int r) ∧
      getVal m' "NCORRLOOKS" =
        some (.real ((r : ℝ) * (a : ℝ) / ((rr / rp) * (ar / ap)))) ∧
      getVal m' "rangePixelSize" = some (.real (rp * (r : ℝ))) ∧
      getVal m' "azimuthPixelSize" = some (.real (ap * (a : ℝ))) := by
  simp only [extract_geometry_metadata] at hok
  rcases hml : extract_multilook_number w g m with e | m₁ <;> rw [hml] at hok
  · rw [exc_bind_err] at hok
    exact absurd hok (by simp)
  rw [exc_bind_ok] at hok
  obtain ⟨a, r, hm₁⟩ :=
    extract_multilook_number_ok_char w g m rr rp ar ap h1 h2 h3 h4 h5 h6 m₁ hml
  subst hm₁
  refine ⟨a, r, ?_⟩
  have e1 : asR (getVal (setVal (setVal (setVal m "ALOOKS" (.int a)) "RLOOKS"
      (.int r)) "NCORRLOOKS"
      (.real ((r : ℝ) * (a : ℝ) / ((rr / rp) * (ar / ap)))))
      "rangePixelSize") = .ok rp := by
    rw [getVal_setVal_ne _ _ _ _ (by decide),
      getVal_setVal_ne _ _ _ _ (by decide),
      getVal_setVal_ne _ _ _ _ (by decide), h2, asR_real]
  rw [e1, exc_bind_ok] at hok
  have e2 : asR (getVal (setVal (setVal (setVal m "ALOOKS" (.int a)) "RLOOKS"
      (.int r)) "NCORRLOOKS"
      (.real ((r : ℝ) * (a : ℝ) / ((rr / rp) * (ar / ap)))))
      "RLOOKS") = .ok ((r : ℤ) : ℝ) := by
    rw [getVal_setVal_ne _ _ _ _ (by decide), getVal_setVal_self, asR_int]
  rw [e2, exc_bind_ok] at hok
  have e3 : asR (getVal (setVal (setVal (setVal (setVal m "ALOOKS" (.int a))
      "RLOOKS" (.int r)) "NCORRLOOKS"
      (.real ((r : ℝ) * (a : ℝ) / ((rr / rp) * (ar / ap)))))
      "rangePixelSize" (.real (rp * (r : ℝ)))) "azimuthPixelSize") = .ok ap := by
    rw [getVal_setVal_ne _ _ _ _ (by decide),
      getVal_setVal_ne _ _ _ _ (by decide),
      getVal_setVal_ne _ _ _ _ (by decide),
      getVal_setVal_ne _ _ _ _ (by decide), h4, asR_real]
  rw [e3, exc_bind_ok] at hok
  have e4 : asR (getVal (setVal (setVal (setVal (setVal m "ALOOKS" (.int a))
      "RLOOKS" (.int r)) "NCORRLOOKS"
      (.real ((r : ℝ) * (a : ℝ) / ((rr / rp) * (ar / ap)))))
      "rangePixelSize" (.real (rp * (r : ℝ)))) "ALOOKS") = .ok ((a : ℤ) : ℝ) := by
    rw [getVal_setVal_ne _ _ _ _ (by decide),
      getVal_setVal_ne _ _ _ _ (by decide),
      getVal_setVal_ne _ _ _ _ (by decide), getVal_setVal_self, asR_int]
  rw [e4, exc_bind_ok] at hok
  refine ⟨?_, ?_, ?_, ?_, ?_⟩
  · rw [foldlM_geom_preserves w _ _ m' "ALOOKS" (by decide) hok,
      getVal_setVal_ne _ _ _ _ (by decide),
      getVal_setVal_ne _ _ _ _ (by decide),
      getVal_setVal_ne _ _ _ _ (by decide),
      getVal_setVal_ne _ _ _ _ (by decide), getVal_setVal_self]
  · rw [foldlM_geom_preserves w _ _ m' "RLOOKS" (by decide) hok,
      getVal_setVal_ne _ _ _ _ (by decide),
      getVal_setVal_ne _ _ _ _ (by decide),
      getVal_setVal_ne _ _ _ _ (by decide), getVal_setVal_self]
  · rw [foldlM_geom_preserves w _ _ m' "NCORRLOOKS" (by decide) hok,
      getVal_setVal_ne _ _ _ _ (by decide),
      getVal_setVal_ne _ _ _ _ (by decide), getVal_setVal_self]
  · rw [foldlM_geom_preserves w _ _ m' "rangePixelSize" (by decide) hok,
      getVal_setVal_ne _ _ _ _ (by decide), getVal_setVal_self]
  · rw [foldlM_geom_preserves w _ _ m' "azimuthPixelSize" (by decide) hok,
      getVal_setVal_self]

/-- Claim C4: `extract_geometry_metadata` stores
`NCORRLOOKS = RLOOKS * ALOOKS / ((rangeResolution / rangePixelSize) *
(azimuthResolution / azimuthPixelSize))` where both pixel sizes in the two
ratios are the single-look values passed in, while the pixel sizes it stores
are those same values multiplied by `RLOOKS` resp. `ALOOKS`: the
`NCORRLOOKS` computation happens before the multilook scaling of the pixel
sizes. -/
theorem ncorrlooks_uses_single_look_pixel_sizes (w : World) (g : Path)
    (m : Meta) (rr rp ar ap : ℝ)
    (h1 : getVal m "rangeResolution" = some (.real rr))
    (h2 : getVal m "rangePixelSize" = some (.real rp))
    (h3 : getVal m "azimuthResolution" = some (.real ar))
    (h4 : getVal m "azimuthPixelSize" = some (.real ap))
    (h5 : getVal m "ALOOKS" = none) (h6 : getVal m "RLOOKS" = none)
    (m' : Meta) (hok : extract_geometry_metadata w g m = .ok m') :
    ∃ a r : ℤ,
      getVal m' "ALOOKS" = some (.int a) ∧
      getVal m' "RLOOKS" = some (.int r) ∧
      getVal m' "NCORRLOOKS" =
        some (.real ((r : ℝ) * (a : ℝ) / ((rr / rp) * (ar / ap)))) ∧
      getVal m' "rangePixelSize" = some (.real (rp * (r : ℝ))) ∧
      getVal m' "azimuthPixelSize" = some (.real (ap * (a : ℝ))) :=
  extract_geometry_ok_char w g m rr rp ar ap h1 h2 h3 h4 h5 h6 m' hok

/-- Witness for C4: a concrete run through `geomW` with 2x2 looks. -/
theorem ncorrlooks_uses_single_look_pixel_sizes_witness :
    ∃ m', extract_geometry_metadata geomW ["geom"] geomM = .ok m' ∧
      ∃ a r : ℤ,
        getVal m' "ALOOKS" = some (.int a) ∧
        getVal m' "RLOOKS" = some (.int r) ∧
        getVal m' "NCORRLOOKS" =
          some (.real ((r : ℝ) * (a : ℝ) / ((4 / 1) * (6 / 1)))) ∧
        getVal m' "rangePixelSize" = some (.real (1 * (r : ℝ))) ∧
        getVal m' "azimuthPixelSize" = some (.real (1 * (a : ℝ))) := by
  have hiso : excIsOk (extract_geometry_metadata geomW ["geom"] geomM) =
      true := rfl
  rcases hE : extract_geometry_metadata geomW ["geom"] geomM with e | m'
  · rw [hE] at hiso
    exact absurd hiso (by simp [excIsOk])
  · exact ⟨m', rfl, ncorrlooks_uses_single_look_pixel_sizes geomW ["geom"]
      geomM 4 1 6 1 rfl rfl rfl rfl rfl rfl m' hE⟩

/-- Counterexample to C5 as stated: `extract_geometry_metadata` mutates its
metadata dict in place (in the embedding: the second call receives the dict
the first call produced, exactly as a Python caller passing the same dict —
or the shared mutable default argument — twice would), and the second call
does not reproduce the first call's result: the pixel sizes are multiplied
by the look numbers again and `NCORRLOOKS` changes. -/
theorem extract_geometry_metadata_second_call_differs :
    extract_geometry_metadata geomW ["geom"] geomM = .ok geomM1 ∧
    extract_geometry_metadata geomW ["geom"] geomM1 = .ok geomM2 ∧
    geomM2 ≠ geomM1 := by
  refine ⟨rfl, rfl, fun hEq => ?_⟩
  have hn := congrArg (fun l => getVal l "NCORRLOOKS") hEq
  have hv2 : getVal geomM2 "NCORRLOOKS" =
      some (.real (((2 : ℤ) : ℝ) * ((2 : ℤ) : ℝ) /
        (4 / (1 * ((2 : ℤ) : ℝ)) * (6 / (1 * ((2 : ℤ) : ℝ)))))) := rfl
  have hv1 : getVal geomM1 "NCORRLOOKS" =
      some (.real (((2 : ℤ) : ℝ) * ((2 : ℤ) : ℝ) / (4 / 1 * (6 / 1)))) := rfl
  simp only [hv1, hv2] at hn
  have hx := Option.some.inj hn
  injection hx with hy
  push_cast at hy
  norm_num at hy

/-- Claim C5 (amended): each conversion step is a pure function of its
explicit inputs, but the metadata dict is updated in place, so only
`extract_multilook_number` is idempotent on its own output;
`extract_geometry_metadata` is not (its pixel-size scaling compounds, see
the counterexample). -/
theorem extract_multilook_number_idempotent (w : World) (g : Path)
    (m m' : Meta) (hok : extract_multilook_number w g m = .ok m') :
    extract_multilook_number w g m' = .ok m' := by
  unfold extract_multilook_number at hok ⊢
  rcases multilookLoop_shape w g ["hgt", "lat", "lon", "los"]
    with h | ⟨a, r, h⟩ | ⟨e, h⟩
  · rw [h, exc_bind_ok] at hok
    rw [h, exc_bind_ok]
    exact ncorrStep_defaults_idem _ _ hok
  · rw [h, exc_bind_ok] at hok
    rw [h, exc_bind_ok]
    obtain ⟨rr, rp, ar, ap, rl, al, e1, e2, e3, e4, e5, e6, hm'⟩ :=
      ncorrStep_ok_char _ _ hok
    have hXA : getVal (setVal (setVal m "ALOOKS" (.int a)) "RLOOKS" (.int r))
        "ALOOKS" = some (.int a) := by
      rw [getVal_setVal_ne _ _ _ _ (by decide), getVal_setVal_self]
    have hXR : getVal (setVal (setVal m "ALOOKS" (.int a)) "RLOOKS" (.int r))
        "RLOOKS" = some (.int r) := getVal_setVal_self _ _ _
    have hA' : getVal m' "ALOOKS" = some (.int a) := by
      rw [hm', getVal_setVal_ne _ _ _ _ (by decide)]
      exact getVal_multilookDefaults_A _ _ hXA
    have hR' : getVal m' "RLOOKS" = some (.int r) := by
      rw [hm', getVal_setVal_ne _ _ _ _ (by decide)]
      exact getVal_multilookDefaults_R _ _ hXR
    rw [setVal_getVal_eq _ _ _ hA', setVal_getVal_eq _ _ _ hR']
    exact ncorrStep_defaults_idem _ _ hok
  · rw [h, exc_bind_err] at hok
    exact absurd hok (by simp)

/-- Witness for the amended C5: a concrete idempotent run of
`extract_multilook_number`. -/
theorem extract_multilook_number_idempotent_witness :
    ∃ m', extract_multilook_number geomW ["geom"] geomM = .ok m' ∧
      extract_multilook_number geomW ["geom"] m' = .ok m' := by
  have hiso : excIsOk (extract_multilook_number geomW ["geom"] geomM) =
      true := rfl
  rcases hE : extract_multilook_number geomW ["geom"] geomM with e | m'
  · rw [hE] at hiso
    exact absurd hiso (by simp [excIsOk])
  · exact ⟨m', rfl,
      extract_multilook_number_idempotent geomW ["geom"] geomM m' hE⟩

/-- Claim C6: when the `los.rdr` geometry file exists, the final dict's
`HEADING` entry is the stringified heading computed from the `az` band of
that file: with `a` the mean of the nonzero pixels, the heading is
`-(270 + a) - round(-(270 + a) / 360) * 360`, and that value always lies in
`[-180, 180]`.  The hypothesis that some pixel is nonzero reflects the
claim's premise that the mean over the nonzero pixels exists (an all-zero
raster would make `np.nanmean` return NaN, which the real-number embedding
does not model). -/
theorem heading_formula_and_range (w : World) (g : Path) (m m' : Meta)
    (hlos : (g ++ ["los.rdr"]) ∈ w.files)
    (hnz : (w.raster (g ++ ["los.rdr"]) (some "az")).flatten.filter
        (fun x => decide (x ≠ 0)) ≠ [])
    (hok : extract_geometry_metadata w g m = .ok m') :
    getVal m' "HEADING" =
      some (.str (w.fstr (losHeading w (g ++ ["los.rdr"])))) ∧
    losHeading w (g ++ ["los.rdr"]) =
      -(270 + npMean ((w.raster (g ++ ["los.rdr"]) (some "az")).flatten.filter
          (fun x => decide (x ≠ 0)))) -
        (npRound (-(270 + npMean ((w.raster (g ++ ["los.rdr"])
          (some "az")).flatten.filter (fun x => decide (x ≠ 0)))) / 360) : ℝ) *
          360 ∧
    -180 ≤ losHeading w (g ++ ["los.rdr"]) ∧
    losHeading w (g ++ ["los.rdr"]) ≤ 180 := by
  have key : ∀ y : ℝ, -180 ≤ y - (npRound (y / 360) : ℝ) * 360 ∧
      y - (npRound (y / 360) : ℝ) * 360 ≤ 180 := by
    intro y
    have h := npRound_abs (y / 360)
    have heq : y - (npRound (y / 360) : ℝ) * 360 =
        (y / 360 - (npRound (y / 360) : ℝ)) * 360 := by
      rw [sub_mul, div_mul_cancel₀ _ (by norm_num : (360 : ℝ) ≠ 0)]
    rw [abs_le] at h
    constructor <;> rw [heq] <;> nlinarith [h.1, h.2]
  have hb : basename (g ++ ["los.rdr"]) = "los.rdr" := by
    simp [basename]
  have hupd : ∀ mi : Meta, geomFileUpdate w mi (g ++ ["los.rdr"]) =
      .ok (setVal mi "HEADING"
        (.str (w.fstr (losHeading w (g ++ ["los.rdr"]))))) := by
    intro mi
    unfold geomFileUpdate
    rw [hb]
    simp only [show strContains "los.rdr" "lat" = false from rfl,
      show strContains "los.rdr" "lon" = false from rfl,
      show strContains "los.rdr" "los" = true from rfl,
      Bool.false_eq_true, if_false, if_true, exc_bind_ok]
    unfold losBlock
    rfl
  simp only [extract_geometry_metadata] at hok
  rcases hml : extract_multilook_number w g m with e | m₁ <;> rw [hml] at hok
  · rw [exc_bind_err] at hok
    exact absurd hok (by simp)
  rw [exc_bind_ok] at hok
  rcases ha1 : asR (getVal m₁ "rangePixelSize") with e | rp <;> rw [ha1] at hok
  · rw [exc_bind_err] at hok
    exact absurd hok (by simp)
  rw [exc_bind_ok] at hok
  rcases ha2 : asR (getVal m₁ "RLOOKS") with e | rl <;> rw [ha2] at hok
  · rw [exc_bind_err] at hok
    exact absurd hok (by simp)
  rw [exc_bind_ok] at hok
  rcases ha3 : asR (getVal (setVal m₁ "rangePixelSize" (.real (rp * rl)))
      "azimuthPixelSize") with e | ap <;> rw [ha3] at hok
  · rw [exc_bind_err] at hok
    exact absurd hok (by simp)
  rw [exc_bind_ok] at hok
  rcases ha4 : asR (getVal (setVal m₁ "rangePixelSize" (.real (rp * rl)))
      "ALOOKS") with e | al <;> rw [ha4] at hok
  · rw [exc_bind_err] at hok
    exact absurd hok (by simp)
  rw [exc_bind_ok] at hok
  have hmap : (["hgt", "lat", "lon", "los"].map (fun i => g ++ [i ++ ".rdr"]))
      = [g ++ ["hgt.rdr"], g ++ ["lat.rdr"], g ++ ["lon.rdr"]] ++
        [g ++ ["los.rdr"]] := rfl
  rw [hmap, List.filter_append] at hok
  have hPlos : decide ((g ++ ["los.rdr"]) ∈ w.files) = true :=
    decide_eq_true hlos
  have hfl : List.filter (fun p => decide (p ∈ w.files)) [g ++ ["los.rdr"]]
      = [g ++ ["los.rdr"]] := by
    simp only [List.filter_cons, List.filter_nil, hPlos, if_true]
  rw [hfl, List.foldlM_append] at hok
  rcases hpre : List.foldlM (geomFileUpdate w)
      (setVal (setVal m₁ "rangePixelSize" (.real (rp * rl)))
        "azimuthPixelSize" (.real (ap * al)))
      (List.filter (fun p => decide (p ∈ w.files))
        [g ++ ["hgt.rdr"], g ++ ["lat.rdr"], g ++ ["lon.rdr"]])
    with e | mi <;> rw [hpre] at hok
  · rw [exc_bind_err] at hok
    exact absurd hok (by simp)
  rw [exc_bind_ok, List.foldlM_cons, hupd mi, exc_bind_ok,
    List.foldlM_nil] at hok
  have hm' : m' = setVal mi "HEADING"
      (.str (w.fstr (losHeading w (g ++ ["los.rdr"])))) := by
    rw [exc_pure_eq_ok] at hok
    exact (Except.ok.inj hok).symm
  refine ⟨by rw [hm', getVal_setVal_self], rfl, ?_, ?_⟩
  · exact (key (-(270 + npMean ((w.raster (g ++ ["los.rdr"])
      (some "az")).flatten.filter (fun x => decide (x ≠ 0)))))).1
  · exact (key (-(270 + npMean ((w.raster (g ++ ["los.rdr"])
      (some "az")).flatten.filter (fun x => decide (x ≠ 0)))))).2

/-- Witness for C6 at `losW`. -/
theorem heading_formula_and_range_witness :
    ∃ m', extract_geometry_metadata losW ["geom"] geomM = .ok m' ∧
      (getVal m' "HEADING" =
        some (.str (losW.fstr (losHeading losW (["geom"] ++ ["los.rdr"])))) ∧
      losHeading losW (["geom"] ++ ["los.rdr"]) =
        -(270 + npMean ((losW.raster (["geom"] ++ ["los.rdr"])
            (some "az")).flatten.filter (fun x => decide (x ≠ 0)))) -
          (npRound (-(270 + npMean ((losW.raster (["geom"] ++ ["los.rdr"])
            (some "az")).flatten.filter (fun x => decide (x ≠ 0)))) / 360) :
            ℝ) * 360 ∧
      -180 ≤ losHeading losW (["geom"] ++ ["los.rdr"]) ∧
      losHeading losW (["geom"] ++ ["los.rdr"]) ≤ 180) := by
  have hnz : (losW.raster (["geom"] ++ ["los.rdr"]) (some "az")).flatten.filter
      (fun x => decide (x ≠ 0)) ≠ [] := by
    have h90 : ((90 : ℝ)) ≠ 0 := by norm_num
    simp [losW, List.filter_cons, h90]
  have hiso : excIsOk (extract_geometry_metadata losW ["geom"] geomM) =
      true := rfl
  rcases hE : extract_geometry_metadata losW ["geom"] geomM with e | m'
  · rw [hE] at hiso
    exact absurd hiso (by simp [excIsOk])
  · exact ⟨m', rfl, heading_formula_and_range losW ["geom"] geomM m'
      (by decide) hnz hE⟩

/-- Claim C7: both extractors derive the azimuth pixel size from the orbital
velocity at `sensingMid` (hermite-interpolated by the external orbit
object): for TOPS it is the Euclidean norm of that velocity times the
burst's `azimuthTimeInterval`; for stripmap it is that norm divided by the
frame's `PRF`.  The last conjunct pins `linalg_norm` to the Euclidean
norm. -/
theorem azimuth_pixel_size_from_orbit (w : World) (env : Ellipsoid)
    (f : Path) :
    (∀ m b, extract_tops_metadata w env f = .ok (m, b) →
      getVal m "azimuthPixelSize" = some (.real
        (linalg_norm (b.orbit.interpolateOrbit b.sensingMid).velocity *
          b.azimuthTimeInterval))) ∧
    (∀ m fr, extract_stripmap_metadata w env f = .ok (m, fr) →
      getVal m "azimuthPixelSize" = some (.real
        (linalg_norm (fr.orbit.interpolateOrbit fr.sensingMid).velocity /
          fr.PRF))) ∧
    (∀ v : Vec3, linalg_norm v = Real.sqrt (v.x ^ 2 + v.y ^ 2 + v.z ^ 2)) := by
  refine ⟨?_, ?_, fun v => rfl⟩
  · intro m b hok
    unfold extract_tops_metadata at hok
    rcases hp : loadTops w f with e | obj <;> rw [hp] at hok
    · rw [exc_bind_err] at hok
      exact absurd hok (by simp)
    rw [exc_bind_ok] at hok
    rcases hb : optToE obj.bursts.head? "IndexError: bursts" with e | burst <;>
      rw [hb] at hok
    · rw [exc_bind_err] at hok
      exact absurd hok (by simp)
    rw [exc_bind_ok] at hok
    rcases he : optToE obj.bursts.getLast? "IndexError: bursts"
      with e | burstEnd <;> rw [he] at hok
    · rw [exc_bind_err] at hok
      exact absurd hok (by simp)
    rw [exc_bind_ok] at hok
    rcases hr : optToE (TOPS_RESOLUTION (topsIW f)) "KeyError: TOPS_RESOLUTION"
      with e | res <;> rw [hr] at hok
    · rw [exc_bind_err] at hok
      exact absurd hok (by simp)
    rw [exc_bind_ok] at hok
    rcases hs : (if 1 < (globDir w.files (dirname f) "IW*.xml").length then
        topsSwathNumbers w (globDir w.files (dirname f) "IW*.xml") >>=
          fun sn => .ok (some sn)
      else .ok none) with e | swaths <;> rw [hs] at hok
    · rw [exc_bind_err] at hok
      exact absurd hok (by simp)
    rw [exc_bind_ok] at hok
    injection Except.ok.inj hok with hm hb2
    subst hm
    subst hb2
    rcases swaths with _ | sn <;> rfl
  · intro m fr hok
    unfold extract_stripmap_metadata at hok
    rcases hp : loadStripFrame w f with e | frame <;> rw [hp] at hok
    · rw [exc_bind_err] at hok
      exact absurd hok (by simp)
    rw [exc_bind_ok] at hok
    injection Except.ok.inj hok with hm hf2
    subst hm
    subst hf2
    rfl

/-- Witness for C7: concrete successful TOPS and stripmap extractions. -/
theorem azimuth_pixel_size_from_orbit_witness :
    (∃ m b, extract_tops_metadata topsW env0 ["master", "IW1.xml"] =
        .ok (m, b) ∧
      getVal m "azimuthPixelSize" = some (.real
        (linalg_norm (b.orbit.interpolateOrbit b.sensingMid).velocity *
          b.azimuthTimeInterval))) ∧
    (∃ m fr, extract_stripmap_metadata stripW env0
        ["masterShelve", "data.dat"] = .ok (m, fr) ∧
      getVal m "azimuthPixelSize" = some (.real
        (linalg_norm (fr.orbit.interpolateOrbit fr.sensingMid).velocity /
          fr.PRF))) := by
  constructor
  · have hiso : excIsOk (extract_tops_metadata topsW env0
        ["master", "IW1.xml"]) = true := rfl
    rcases hE : extract_tops_metadata topsW env0 ["master", "IW1.xml"]
      with e | p
    · rw [hE] at hiso
      exact absurd hiso (by simp [excIsOk])
    · obtain ⟨m, b⟩ := p
      exact ⟨m, b, rfl,
        (azimuth_pixel_size_from_orbit topsW env0
          ["master", "IW1.xml"]).1 m b hE⟩
  · have hiso : excIsOk (extract_stripmap_metadata stripW env0
        ["masterShelve", "data.dat"]) = true := rfl
    rcases hE : extract_stripmap_metadata stripW env0
        ["masterShelve", "data.dat"] with e | p
    · rw [hE] at hiso
      exact absurd hiso (by simp [excIsOk])
    · obtain ⟨m, fr⟩ := p
      exact ⟨m, fr, rfl,
        (azimuth_pixel_size_from_orbit stripW env0
          ["masterShelve", "data.dat"]).2.1 m fr hE⟩

/-- Claim C1 (the freshness check `ut.run_or_skip` and the rsc read-back
`readfile.read_roipac_rsc` are repository utilities outside `src/`,
modelled from the spec): with `update_mode` on and an existing, current rsc
file, `extract_isce_metadata` returns the rsc file's contents and performs
no write (and no extraction: the result is the read-back alone); with
`update_mode` off it always runs the extraction body, whose every
successful outcome writes exactly one rsc file carrying the returned
metadata. -/
theorem update_skip_behaviour (w : World) (env : Ellipsoid)
    (meta_file : Path) (geom_dir : Option Path) (rsc_file0 : Option Path) :
    ((rsc_file0.getD (dirname meta_file ++ ["data.rsc"])) ∈ w.files →
      w.mtime meta_file <
        w.mtime (rsc_file0.getD (dirname meta_file ++ ["data.rsc"])) →
      extract_isce_metadata w env meta_file geom_dir rsc_file0 true =
        .ok (w.rscData (rsc_file0.getD (dirname meta_file ++ ["data.rsc"])),
          [])) ∧
    (extract_isce_metadata w env meta_file geom_dir rsc_file0 false =
      extract_isce_run w env meta_file geom_dir
        (rsc_file0.getD (dirname meta_file ++ ["data.rsc"]))) ∧
    (∀ md ws,
      extract_isce_metadata w env meta_file geom_dir rsc_file0 false =
        .ok (md, ws) →
      ws = [(rsc_file0.getD (dirname meta_file ++ ["data.rsc"]), md)]) := by
  refine ⟨?_, ?_, ?_⟩
  · intro hin hlt
    unfold extract_isce_metadata
    rw [if_pos ⟨rfl, by unfold run_or_skip; rw [if_pos ⟨hin, hlt⟩]⟩]
  · unfold extract_isce_metadata
    rw [if_neg (by simp)]
  · intro md ws hok
    unfold extract_isce_metadata at hok
    rw [if_neg (by simp)] at hok
    unfold extract_isce_run at hok
    rcases hq : get_processor w meta_file with e | proc <;> rw [hq] at hok
    · rw [exc_bind_err] at hok
      exact absurd hok (by simp)
    rw [exc_bind_ok] at hok
    rcases hx : (if proc = "tops"
        then (extract_tops_metadata w env meta_file).map Prod.fst
        else (extract_stripmap_metadata w env meta_file).map Prod.fst)
      with e | md0 <;> rw [hx] at hok
    · rw [exc_bind_err] at hok
      exact absurd hok (by simp)
    rw [exc_bind_ok] at hok
    rcases hg : (match geom_dir with
        | some g => extract_geometry_metadata w g md0
        | none => .ok md0) with e | md1 <;> rw [hg] at hok
    · rw [exc_bind_err] at hok
      exact absurd hok (by simp)
    rw [exc_bind_ok] at hok
    injection Except.ok.inj hok with hmd hws
    rw [← hws, hmd]

/-- Witness for C1: the skip branch fires at `rscW` and hands back the rsc
contents with no write; and with `update_mode` off the run branch is taken
unconditionally. -/
theorem update_skip_behaviour_witness :
    extract_isce_metadata rscW env0 ["d", "m.xml"] none none true =
      .ok (rscW.rscData ["d", "data.rsc"], []) ∧
    extract_isce_metadata rscW env0 ["d", "m.xml"] none none false =
      extract_isce_run rscW env0 ["d", "m.xml"] none ["d", "data.rsc"] := by
  constructor
  · exact (update_skip_behaviour rscW env0 ["d", "m.xml"] none none).1
      (by decide) (by decide)
  · exact (update_skip_behaviour rscW env0 ["d", "m.xml"] none none).2.1

/-- Claim C3: whenever the update-skip branch is not taken and
`extract_isce_metadata` succeeds, every value of the dict it returns (which
is also the dict it writes) is a string — the `str()` conversion loop runs
over every entry, for either processor and with or without a geometry
directory. -/
theorem metadata_values_all_strings (w : World) (env : Ellipsoid)
    (meta_file : Path) (geom_dir : Option Path) (rsc_file0 : Option Path)
    (update_mode : Bool) (md : Meta) (ws : List (Path × Meta))
    (hskip : ¬ (update_mode = true ∧
      run_or_skip w (rsc_file0.getD (dirname meta_file ++ ["data.rsc"]))
        meta_file = "skip"))
    (hok : extract_isce_metadata w env meta_file geom_dir rsc_file0
      update_mode = .ok (md, ws)) :
    (∀ kv ∈ md, ∃ s, kv.2 = Value.str s) ∧
    ws = [(rsc_file0.getD (dirname meta_file ++ ["data.rsc"]), md)] := by
  unfold extract_isce_metadata at hok
  rw [if_neg hskip] at hok
  unfold extract_isce_run at hok
  rcases hq : get_processor w meta_file with e | proc <;> rw [hq] at hok
  · rw [exc_bind_err] at hok
    exact absurd hok (by simp)
  rw [exc_bind_ok] at hok
  rcases hx : (if proc = "tops"
      then (extract_tops_metadata w env meta_file).map Prod.fst
      else (extract_stripmap_metadata w env meta_file).map Prod.fst)
    with e | md0 <;> rw [hx] at hok
  · rw [exc_bind_err] at hok
    exact absurd hok (by simp)
  rw [exc_bind_ok] at hok
  rcases hg : (match geom_dir with
      | some g => extract_geometry_metadata w g md0
      | none => .ok md0) with e | md1 <;> rw [hg] at hok
  · rw [exc_bind_err] at hok
    exact absurd hok (by simp)
  rw [exc_bind_ok] at hok
  injection Except.ok.inj hok with hmd hws
  constructor
  · intro kv hkv
    rw [← hmd] at hkv
    unfold standardize_metadata pyStrConvert at hkv
    obtain ⟨kv0, _, hkv0⟩ := List.mem_map.1 hkv
    exact ⟨pyStrV w kv0.2, by rw [← hkv0]⟩
  · rw [← hws, hmd]

/-- Witness for C3: a concrete non-skip run through the TOPS world. -/
theorem metadata_values_all_strings_witness :
    ∃ md ws, extract_isce_metadata topsW env0 ["master", "IW1.xml"]
        none none false = .ok (md, ws) ∧
      ((∀ kv ∈ md, ∃ s, kv.2 = Value.str s) ∧
        ws = [(["master", "data.rsc"], md)]) := by
  have hiso : excIsOk (extract_isce_metadata topsW env0 ["master", "IW1.xml"]
      none none false) = true := rfl
  rcases hE : extract_isce_metadata topsW env0 ["master", "IW1.xml"]
      none none false with e | p
  · rw [hE] at hiso
    exact absurd hiso (by simp [excIsOk])
  · obtain ⟨md, ws⟩ := p
    exact ⟨md, ws, rfl,
      metadata_values_all_strings topsW env0 ["master", "IW1.xml"] none none
        false md ws (by simp) hE⟩

theorem optToE_some {α : Type} (a : α) (e : String) :
    optToE (some a) e = .ok a := rfl

theorem pyIdx_zero {α : Type} (a : α) (l : List α) :
    pyIdx (a :: l) 0 = .ok a := by
  simp [pyIdx]

theorem pyIdx_one {α : Type} (a b : α) (l : List α) :
    pyIdx (a :: b :: l) 1 = .ok b := by
  simp [pyIdx]

theorem add_ifgram_ok_date12 (w : World) (m0 : Meta) (d0 d1 : String)
    (rest : List String) (bd : BDict)
    (hbd : bd = [] ∨ ((getB bd d1).isSome ∧ (getB bd d0).isSome)) :
    ∃ ifg, add_ifgram_metadata w m0 (d0 :: d1 :: rest) bd = .ok ifg ∧
      getVal ifg "DATE12" = some (.str (String.mk (d0.toList.drop 2) ++ "-" ++
        String.mk (d1.toList.drop 2))) := by
  unfold add_ifgram_metadata
  rw [pyIdx_zero, exc_bind_ok, pyIdx_one, exc_bind_ok]
  rcases hbdc : bd with _ | ⟨kv, bdt⟩
  · exact ⟨_, rfl, getVal_setVal_self _ _ _⟩
  · subst hbdc
    rcases hbd with h | ⟨h1, h0⟩
    · exact absurd h (by simp)
    · obtain ⟨v1, hv1⟩ := Option.isSome_iff_exists.1 h1
      obtain ⟨v0, hv0⟩ := Option.isSome_iff_exists.1 h0
      rw [hv1, optToE_some, exc_bind_ok, hv0, optToE_some, exc_bind_ok]
      refine ⟨_, rfl, ?_⟩
      rw [getVal_setVal_ne _ _ _ _ (by decide),
        getVal_setVal_ne _ _ _ _ (by decide), getVal_setVal_self]

theorem prepare_files_mapM (w : World) (metadata : Meta) (bd : BDict)
    (fs : List Path)
    (H : ∀ f ∈ fs, ∃ d0 d1 rest,
      pySplit (basename (dirname f)) "_" = d0 :: d1 :: rest ∧
      (bd = [] ∨ ((getB bd d1).isSome ∧ (getB bd d0).isSome))) :
    ∃ ws, fs.mapM (fun f =>
        add_ifgram_metadata w (updateMeta (w.attrMeta f) metadata)
          (pySplit (basename (dirname f)) "_") bd >>= fun ifg =>
        .ok (withLast f (fun b => b ++ ".rsc"), ifg)) = .ok ws ∧
      List.Forall₂ (fun f pr =>
        pr.1 = withLast f (fun b => b ++ ".rsc") ∧
        ∃ d0 d1 rest,
          pySplit (basename (dirname f)) "_" = d0 :: d1 :: rest ∧
          getVal pr.2 "DATE12" = some (.str (String.mk (d0.toList.drop 2) ++
            "-" ++ String.mk (d1.toList.drop 2)))) fs ws := by
  induction fs with
  | nil => exact ⟨[], rfl, List.Forall₂.nil⟩
  | cons f fs ih =>
    obtain ⟨d0, d1, rest, hsplit, hbd⟩ := H f (List.mem_cons_self f fs)
    obtain ⟨ifg, hifg, hdate⟩ := add_ifgram_ok_date12 w
      (updateMeta (w.attrMeta f) metadata) d0 d1 rest bd hbd
    obtain ⟨ws, hws, hfa⟩ := ih (fun g hg => H g (List.mem_cons_of_mem f hg))
    refine ⟨(withLast f (fun b => b ++ ".rsc"), ifg) :: ws, ?_, ?_⟩
    · rw [List.mapM_cons, hsplit, hifg, exc_bind_ok, exc_bind_ok, hws,
        exc_bind_ok]
      rfl
    · exact List.Forall₂.cons ⟨rfl, d0, d1, rest, hsplit, hdate⟩ hfa

/-- Claim C8 (amended): `prepare_stack` raises `FileNotFoundError` exactly
when no file under `inputDir/*/` matches the pattern; when some file
matches *and* every matched file's parent directory name splits on `_`
into at least two tokens whose dates are found in the baseline dict (or
the dict is empty), it emits exactly one `.rsc` serialization per matched
file — at the matched file's path with `.rsc` appended, carrying a
`DATE12` entry derived from the parent directory name.  (The provisos are
forced by the counterexample: an underscore-less parent name raises
`IndexError` instead.) -/
theorem prepare_stack_writes (w : World) (inputDir : Path) (pat : String)
    (metadata : Meta) (bd : BDict) (um : Bool)
    (H : ∀ f ∈ glob2 w.files inputDir pat, ∃ d0 d1 rest,
      pySplit (basename (dirname f)) "_" = d0 :: d1 :: rest ∧
      (bd = [] ∨ ((getB bd d1).isSome ∧ (getB bd d0).isSome))) :
    (glob2 w.files inputDir pat = [] →
      prepare_stack w inputDir pat metadata bd um =
        .error "FileNotFoundError: no file found in pattern") ∧
    (glob2 w.files inputDir pat ≠ [] →
      ∃ ws, prepare_stack w inputDir pat metadata bd um = .ok ws ∧
        List.Forall₂ (fun f pr =>
          pr.1 = withLast f (fun b => b ++ ".rsc") ∧
          ∃ d0 d1 rest,
            pySplit (basename (dirname f)) "_" = d0 :: d1 :: rest ∧
            getVal pr.2 "DATE12" = some (.str
              (String.mk (d0.toList.drop 2) ++ "-" ++
                String.mk (d1.toList.drop 2))))
          (sortPaths (glob2 w.files inputDir pat)) ws) := by
  constructor
  · intro h0
    unfold prepare_stack
    rw [h0]
    rfl
  · intro h0
    have hperm := List.perm_insertionSort
      (fun a b => joinPath a ≤ joinPath b) (glob2 w.files inputDir pat)
    have hsne : sortPaths (glob2 w.files inputDir pat) ≠ [] := by
      intro hc
      unfold sortPaths at hc
      rw [hc] at hperm
      exact h0 (List.Perm.nil_eq hperm).symm
    have H2 : ∀ f ∈ sortPaths (glob2 w.files inputDir pat), ∃ d0 d1 rest,
        pySplit (basename (dirname f)) "_" = d0 :: d1 :: rest ∧
        (bd = [] ∨ ((getB bd d1).isSome ∧ (getB bd d0).isSome)) := by
      intro f hf
      unfold sortPaths at hf
      exact H f (hperm.mem_iff.1 hf)
    obtain ⟨ws, hws, hfa⟩ := prepare_files_mapM w metadata bd _ H2
    refine ⟨ws, ?_, hfa⟩
    unfold prepare_stack
    rw [if_neg hsne, hws]

/-- Counterexample to C8 as stated: a file matches the pattern, yet
`prepare_stack` raises `IndexError` (from `dates[1]` on the underscore-less
parent directory name) — so "otherwise it writes one sidecar per matched
file" fails, though `FileNotFoundError` itself is indeed not raised. -/
theorem prepare_stack_indexerror_counterexample :
    glob2 c8w.files ["in"] "x.unw" ≠ [] ∧
    prepare_stack c8w ["in"] "x.unw" [] [] true =
      .error "IndexError: list index out of range" := by
  constructor
  · decide
  · rfl

/-- Witness for the amended C8 at `c8w2`. -/
theorem prepare_stack_writes_witness :
    ∃ ws, prepare_stack c8w2 ["in"] "x.unw" [] [] true = .ok ws ∧
      List.Forall₂ (fun f pr =>
        pr.1 = withLast f (fun b => b ++ ".rsc") ∧
        ∃ d0 d1 rest,
          pySplit (basename (dirname f)) "_" = d0 :: d1 :: rest ∧
          getVal pr.2 "DATE12" = some (.str
            (String.mk (d0.toList.drop 2) ++ "-" ++
              String.mk (d1.toList.drop 2))))
        (sortPaths (glob2 c8w2.files ["in"] "x.unw")) ws := by
  have H : ∀ f ∈ glob2 c8w2.files ["in"] "x.unw", ∃ d0 d1 rest,
      pySplit (basename (dirname f)) "_" = d0 :: d1 :: rest ∧
      (([] : BDict) = [] ∨ ((getB [] d1).isSome ∧ (getB [] d0).isSome)) := by
    intro f hf
    have hg : glob2 c8w2.files ["in"] "x.unw" = [["in", "A1_B2", "x.unw"]] :=
      rfl
    rw [hg, List.mem_singleton] at hf
    subst hf
    exact ⟨"A1", "B2", [], rfl, Or.inl rfl⟩
  exact (prepare_stack_writes c8w2 ["in"] "x.unw" [] [] true H).2
    (by decide)

/-- Claim C9: `cmd_line_parse` accepts any invocation giving at least one
of `-i`, `-g`, `-m`; but `main` calls `get_processor` on `metaFile`
unconditionally (line 481), and with `-m` omitted that raises `TypeError`
(from `os.path.dirname(None)`) before any output is produced — so `-i` or
`-g` alone never yields a successful run. -/
theorem missing_meta_never_succeeds (w : World) (env : Ellipsoid)
    (inps : Inps) (hm : inps.metaFile = none) :
    ((inps.ifgramDir ≠ none ∨ inps.geometryDir ≠ none) →
      cmd_line_parse inps = .ok inps) ∧
    (main w env inps).1 = [] ∧
    ∃ e, (main w env inps).2 = .error e := by
  have hcl : ∀ inps', cmd_line_parse inps = .ok inps' → inps' = inps := by
    intro inps' h
    unfold cmd_line_parse at h
    by_cases hc : inps.ifgramDir = none ∧ inps.geometryDir = none ∧
      inps.metaFile = none
    · rw [if_pos hc] at h
      exact absurd h (by simp)
    · rw [if_neg hc] at h
      exact (Except.ok.inj h).symm
  constructor
  · intro hor
    have hcna : ¬ (inps.ifgramDir = none ∧ inps.geometryDir = none ∧
        inps.metaFile = none) := by
      intro hc
      rcases hor with h | h
      · exact h hc.1
      · exact h hc.2.1
    unfold cmd_line_parse
    rw [if_neg hcna]
  · unfold main
    rcases hc : cmd_line_parse inps with e | inps'
    · exact ⟨rfl, e, rfl⟩
    · have hm' : inps'.metaFile = none := by
        rw [hcl inps' hc]
        exact hm
      have hgp : getProcessorOpt w inps'.metaFile =
          .error "TypeError: expected str, bytes or os.PathLike object" := by
        unfold getProcessorOpt
        rw [hm']
      show (mainRun w env inps').1 = [] ∧
        ∃ e, (mainRun w env inps').2 = Except.error e
      unfold mainRun
      rw [hgp]
      exact ⟨rfl, _, rfl⟩

/-- Witness for C9: the `-g`-only invocation parses but `main` fails with
no output. -/
theorem missing_meta_never_succeeds_witness :
    ((inpsG.ifgramDir ≠ none ∨ inpsG.geometryDir ≠ none) →
      cmd_line_parse inpsG = .ok inpsG) ∧
    (main losW env0 inpsG).1 = [] ∧
    ∃ e, (main losW env0 inpsG).2 = .error e :=
  missing_meta_never_succeeds losW env0 inpsG rfl

theorem getB_setB_self (m : BDict) (k : String) (v : ℝ × ℝ) :
    getB (setB m k v) k = some v := by
  induction m with
  | nil => simp [setB, getB]
  | cons kv rest ih =>
    obtain ⟨k', v'⟩ := kv
    by_cases h : k' = k <;> simp [setB, getB, h, ih]

theorem getB_setB_ne (m : BDict) (k k' : String) (v : ℝ × ℝ) (h : k' ≠ k) :
    getB (setB m k v) k' = getB m k' := by
  induction m with
  | nil => simp [setB, getB, Ne.symm h]
  | cons kv rest ih =>
    obtain ⟨k₀, v₀⟩ := kv
    by_cases h0 : k₀ = k
    · subst h0
      simp [setB, getB, Ne.symm h]
    · by_cases h1 : k₀ = k' <;> simp [setB, getB, h0, h1, h, ih]

theorem foldl_choice_mem {f : String → String → String}
    (hf : ∀ b y, f b y = b ∨ f b y = y) :
    ∀ (l : List String) (b : String), l.foldl f b ∈ b :: l := by
  intro l
  induction l with
  | nil =>
    intro b
    simp [List.foldl]
  | cons y ys ih =>
    intro b
    rw [List.foldl_cons]
    rcases hf b y with h | h <;> rw [h]
    · rcases List.mem_cons.1 (ih b) with h2 | h2
      · exact List.mem_cons.2 (Or.inl h2)
      · exact List.mem_cons.2 (Or.inr (List.mem_cons.2 (Or.inr h2)))
    · rcases List.mem_cons.1 (ih y) with h2 | h2
      · exact List.mem_cons.2 (Or.inr (List.mem_cons.2 (Or.inl h2)))
      · exact List.mem_cons.2 (Or.inr (List.mem_cons.2 (Or.inr h2)))

theorem most_common_mem (l : List String) (h : l ≠ []) :
    most_common l ∈ l := by
  rcases hl : l with _ | ⟨x, xs⟩
  · exact absurd hl h
  · have hf : ∀ b y, (if (x :: xs).count b < (x :: xs).count y then y
        else b) = b ∨ (if (x :: xs).count b < (x :: xs).count y then y
        else b) = y := by
      intro b y
      by_cases hc : (x :: xs).count b < (x :: xs).count y
      · right
        rw [if_pos hc]
      · left
        rw [if_neg hc]
    have hm := foldl_choice_mem hf (x :: xs) x
    show (x :: xs).foldl (fun best y =>
      if (x :: xs).count best < (x :: xs).count y then y else best) x ∈
        x :: xs
    rcases List.mem_cons.1 hm with h2 | h2
    · rw [h2]
      exact List.mem_cons_self x xs
    · exact h2

theorem baselineFiles_tops (w : World) (dir : Path) :
    baselineFiles w dir "tops" = sortPaths (glob2 w.files dir "*.txt") := by
  unfold baselineFiles
  rw [if_pos rfl]

theorem baselineFiles_stripmap (w : World) (dir : Path) :
    baselineFiles w dir "stripmap" =
      sortPaths (globDir w.files dir "*.txt") := by
  have h : ("stripmap" : String) ≠ "tops" := by decide
  unfold baselineFiles
  rw [if_neg h]

theorem bLoop_ok_char (w : World) (proc : String) (fs : List Path)
    (acc : BDict) (last : Option (List String)) (B : BDict)
    (l' : Option (List String))
    (hok : bLoop w proc fs acc last = .ok (B, l')) :
    (∀ k v, getB B k = some v → getB acc k = some v ∨
      ∃ p ∈ fs, pyIdx (datesOf p) 1 = .ok k ∧
        (if proc = "tops" then read_tops_baseline w p
         else read_stripmap_baseline w p) = .ok v) ∧
    (fs = [] → l' = last) ∧
    (fs ≠ [] → ∃ p ∈ fs, l' = some (datesOf p)) := by
  induction fs generalizing acc last with
  | nil =>
    injection Except.ok.inj hok with hB hl
    subst hB
    subst hl
    exact ⟨fun k v h => Or.inl h, fun _ => rfl, fun h => absurd rfl h⟩
  | cons f fs ih =>
    unfold bLoop at hok
    rcases hv : (if proc = "tops" then read_tops_baseline w f
        else read_stripmap_baseline w f) with e | v <;> rw [hv] at hok
    · rw [exc_bind_err] at hok
      exact absurd hok (by simp)
    rw [exc_bind_ok] at hok
    rcases hk : pyIdx (datesOf f) 1 with e | key <;> rw [hk] at hok
    · rw [exc_bind_err] at hok
      exact absurd hok (by simp)
    rw [exc_bind_ok] at hok
    obtain ⟨hmem, hnil, hne⟩ := ih (setB acc key v) (some (datesOf f)) hok
    refine ⟨?_, fun h => absurd h (by simp), ?_⟩
    · intro k v' hkv
      rcases hmem k v' hkv with h | ⟨p, hp, hpk, hpv⟩
      · by_cases hkk : k = key
        · subst hkk
          rw [getB_setB_self] at h
          refine Or.inr ⟨f, List.mem_cons_self f fs, hk, ?_⟩
          rw [hv]
          exact congrArg Except.ok (Option.some.inj h)
        · rw [getB_setB_ne _ _ _ _ hkk] at h
          exact Or.inl h
      · exact Or.inr ⟨p, List.mem_cons_of_mem f hp, hpk, hpv⟩
    · intro _
      by_cases hfs : fs = []
      · subst hfs
        exact ⟨f, List.mem_cons_self f [], hnil rfl⟩
      · obtain ⟨p, hp, hl⟩ := hne hfs
        exact ⟨p, List.mem_cons_of_mem f hp, hl⟩

/-- Claim C10 (`ut.most_common` is a repository utility outside `src/`,
modelled from its ordinary meaning): for either recognized processor,
`read_baseline_timeseries` returns `None` when no baseline `.txt` file
matches; otherwise, whenever it succeeds, the dictionary maps the most
common first-date token of the file names to `[0, 0]`, every other entry
comes from a file whose first date equals that most common date (all
other files are ignored) and holds that file's parsed baseline pair,
which for the `tops` processor has equal components, both the mean of
the file's `Bperp (average)` values. -/
theorem read_baseline_timeseries_structure (w : World) (dir : Path)
    (processor : String)
    (hproc : processor = "tops" ∨ processor = "stripmap")
    (H : ∀ p ∈ baselineFiles w dir processor, ∃ d2,
      datesOf p = [date1Of p, d2]) :
    (baselineFiles w dir processor = [] →
      read_baseline_timeseries w dir processor = .ok none) ∧
    (∀ res, read_baseline_timeseries w dir processor = .ok res →
      baselineFiles w dir processor ≠ [] →
      ∃ B, res = some B ∧
        getB B (most_common ((baselineFiles w dir processor).map
          date1Of)) = some (0, 0) ∧
        (∀ k v, getB B k = some v →
          k ≠ most_common ((baselineFiles w dir processor).map date1Of) →
          ∃ p ∈ baselineFiles w dir processor,
            date1Of p = most_common ((baselineFiles w dir processor).map
              date1Of) ∧
            datesOf p = [date1Of p, k] ∧
            (if processor = "tops" then read_tops_baseline w p
             else read_stripmap_baseline w p) = .ok v ∧
            (processor = "tops" → ∃ bs, topsBperps w p = .ok bs ∧
              v = (npMean bs, npMean bs)))) := by
  rcases hproc with hp | hp <;> subst hp
  · rw [baselineFiles_tops] at H ⊢
    refine ⟨?_, ?_⟩
    · intro h0
      unfold read_baseline_timeseries
      rw [if_pos rfl, exc_bind_ok, if_pos h0]
    · intro res hok hLne
      have hm1 : most_common ((sortPaths (glob2 w.files dir "*.txt")).map
          date1Of) ∈ (sortPaths (glob2 w.files dir "*.txt")).map date1Of :=
        most_common_mem _ (by
          intro hc
          exact hLne (List.map_eq_nil_iff.1 hc))
      obtain ⟨p0, hp0L, hp0⟩ := List.mem_map.1 hm1
      have hp0b : (date1Of p0 == most_common ((sortPaths (glob2 w.files dir
          "*.txt")).map date1Of)) = true := by
        rw [hp0]
        exact beq_self_eq_true _
      have hp0kept : p0 ∈ (sortPaths (glob2 w.files dir "*.txt")).filter
          (fun p => date1Of p == most_common ((sortPaths (glob2 w.files dir
            "*.txt")).map date1Of)) := List.mem_filter.2 ⟨hp0L, hp0b⟩
      have hkeptne := List.ne_nil_of_mem hp0kept
      unfold read_baseline_timeseries at hok
      rw [if_pos rfl, exc_bind_ok, if_neg hLne] at hok
      rcases hbl : bLoop w "tops"
          ((sortPaths (glob2 w.files dir "*.txt")).filter
            (fun p => date1Of p == most_common ((sortPaths (glob2 w.files
              dir "*.txt")).map date1Of))) [] none with e | bl <;>
        rw [hbl] at hok
      · rw [exc_bind_err] at hok
        exact absurd hok (by simp)
      rw [exc_bind_ok] at hok
      obtain ⟨B0, l'⟩ := bl
      obtain ⟨hmem, _, hne⟩ := bLoop_ok_char w "tops" _ [] none B0 l' hbl
      obtain ⟨p1, hp1, hl'⟩ := hne hkeptne
      have hp1L := List.mem_of_mem_filter hp1
      have hp1d : date1Of p1 = most_common ((sortPaths (glob2 w.files dir
          "*.txt")).map date1Of) := eq_of_beq (List.mem_filter.1 hp1).2
      obtain ⟨d2, hd2⟩ := H p1 hp1L
      simp only [hl', hd2] at hok
      rw [pyIdx_zero, exc_bind_ok] at hok
      refine ⟨setB B0 (date1Of p1) (0, 0), (Except.ok.inj hok).symm, ?_, ?_⟩
      · rw [← hp1d]
        exact getB_setB_self _ _ _
      · intro k v hkv hkne
        have hkne' : k ≠ date1Of p1 := by
          rw [hp1d]
          exact hkne
        rw [getB_setB_ne _ _ _ _ hkne'] at hkv
        rcases hmem k v hkv with h | ⟨p, hp, hpk, hpv⟩
        · simp [getB] at h
        · have hpL := List.mem_of_mem_filter hp
          have hpd : date1Of p = most_common ((sortPaths (glob2 w.files dir
              "*.txt")).map date1Of) := eq_of_beq (List.mem_filter.1 hp).2
          obtain ⟨d2p, hd2p⟩ := H p hpL
          rw [hd2p, pyIdx_one] at hpk
          have hk2 : d2p = k := Except.ok.inj hpk
          subst hk2
          refine ⟨p, hpL, hpd, hd2p, hpv, fun _ => ?_⟩
          have hpv2 := hpv
          rw [if_pos rfl] at hpv2
          unfold read_tops_baseline at hpv2
          rcases hbs : topsBperps w p with e | bs <;> rw [hbs] at hpv2
          · rw [exc_bind_err] at hpv2
            exact absurd hpv2 (by simp)
          · rw [exc_bind_ok] at hpv2
            exact ⟨bs, rfl, (Except.ok.inj hpv2).symm⟩
  · have hst : ("stripmap" : String) ≠ "tops" := by decide
    rw [baselineFiles_stripmap] at H ⊢
    refine ⟨?_, ?_⟩
    · intro h0
      unfold read_baseline_timeseries
      rw [if_neg hst, if_pos rfl, exc_bind_ok, if_pos h0]
    · intro res hok hLne
      have hm1 : most_common ((sortPaths (globDir w.files dir "*.txt")).map
          date1Of) ∈ (sortPaths (globDir w.files dir "*.txt")).map date1Of :=
        most_common_mem _ (by
          intro hc
          exact hLne (List.map_eq_nil_iff.1 hc))
      obtain ⟨p0, hp0L, hp0⟩ := List.mem_map.1 hm1
      have hp0b : (date1Of p0 == most_common ((sortPaths (globDir w.files
          dir "*.txt")).map date1Of)) = true := by
        rw [hp0]
        exact beq_self_eq_true _
      have hp0kept : p0 ∈ (sortPaths (globDir w.files dir "*.txt")).filter
          (fun p => date1Of p == most_common ((sortPaths (globDir w.files
            dir "*.txt")).map date1Of)) := List.mem_filter.2 ⟨hp0L, hp0b⟩
      have hkeptne := List.ne_nil_of_mem hp0kept
      unfold read_baseline_timeseries at hok
      rw [if_neg hst, if_pos rfl, exc_bind_ok, if_neg hLne] at hok
      rcases hbl : bLoop w "stripmap"
          ((sortPaths (globDir w.files dir "*.txt")).filter
            (fun p => date1Of p == most_common ((sortPaths (globDir w.files
              dir "*.txt")).map date1Of))) [] none with e | bl <;>
        rw [hbl] at hok
      · rw [exc_bind_err] at hok
        exact absurd hok (by simp)
      rw [exc_bind_ok] at hok
      obtain ⟨B0, l'⟩ := bl
      obtain ⟨hmem, _, hne⟩ := bLoop_ok_char w "stripmap" _ [] none B0 l' hbl
      obtain ⟨p1, hp1, hl'⟩ := hne hkeptne
      have hp1L := List.mem_of_mem_filter hp1
      have hp1d : date1Of p1 = most_common ((sortPaths (globDir w.files dir
          "*.txt")).map date1Of) := eq_of_beq (List.mem_filter.1 hp1).2
      obtain ⟨d2, hd2⟩ := H p1 hp1L
      simp only [hl', hd2] at hok
      rw [pyIdx_zero, exc_bind_ok] at hok
      refine ⟨setB B0 (date1Of p1) (0, 0), (Except.ok.inj hok).symm, ?_, ?_⟩
      · rw [← hp1d]
        exact getB_setB_self _ _ _
      · intro k v hkv hkne
        have hkne' : k ≠ date1Of p1 := by
          rw [hp1d]
          exact hkne
        rw [getB_setB_ne _ _ _ _ hkne'] at hkv
        rcases hmem k v hkv with h | ⟨p, hp, hpk, hpv⟩
        · simp [getB] at h
        · have hpL := List.mem_of_mem_filter hp
          have hpd : date1Of p = most_common ((sortPaths (globDir w.files
              dir "*.txt")).map date1Of) := eq_of_beq (List.mem_filter.1 hp).2
          obtain ⟨d2p, hd2p⟩ := H p hpL
          rw [hd2p, pyIdx_one] at hpk
          have hk2 : d2p = k := Except.ok.inj hpk
          subst hk2
          exact ⟨p, hpL, hpd, hd2p, hpv, fun hc => absurd hc hst⟩

/-- Witness for C10 at `blW` (tops) and `blWs` (stripmap). -/
theorem read_baseline_timeseries_structure_witness :
    (∃ res, read_baseline_timeseries blW ["bl"] "tops" = .ok res ∧
      ∃ B, res = some B ∧
        getB B (most_common ((baselineFiles blW ["bl"] "tops").map
          date1Of)) = some (0, 0)) ∧
    (∃ res, read_baseline_timeseries blWs ["bl"] "stripmap" = .ok res ∧
      ∃ B, res = some B ∧
        getB B (most_common ((baselineFiles blWs ["bl"] "stripmap").map
          date1Of)) = some (0, 0)) := by
  constructor
  · have H : ∀ p ∈ baselineFiles blW ["bl"] "tops", ∃ d2,
        datesOf p = [date1Of p, d2] := by
      intro p hp
      have hs : baselineFiles blW ["bl"] "tops" =
          [["bl", "A", "20141213_20141225.txt"]] := rfl
      rw [hs, List.mem_singleton] at hp
      subst hp
      exact ⟨"20141225", rfl⟩
    have hiso : excIsOk (read_baseline_timeseries blW ["bl"] "tops") =
        true := rfl
    rcases hE : read_baseline_timeseries blW ["bl"] "tops" with e | res
    · rw [hE] at hiso
      exact absurd hiso (by simp [excIsOk])
    · obtain ⟨B, hB, href, _⟩ :=
        (read_baseline_timeseries_structure blW ["bl"] "tops"
          (Or.inl rfl) H).2 res hE (by decide)
      exact ⟨res, rfl, B, hB, href⟩
  · have H : ∀ p ∈ baselineFiles blWs ["bl"] "stripmap", ∃ d2,
        datesOf p = [date1Of p, d2] := by
      intro p hp
      have hs : baselineFiles blWs ["bl"] "stripmap" =
          [["bl", "20141213_20141225.txt"]] := rfl
      rw [hs, List.mem_singleton] at hp
      subst hp
      exact ⟨"20141225", rfl⟩
    have hiso : excIsOk (read_baseline_timeseries blWs ["bl"] "stripmap") =
        true := rfl
    rcases hE : read_baseline_timeseries blWs ["bl"] "stripmap" with e | res
    · rw [hE] at hiso
      exact absurd hiso (by simp [excIsOk])
    · obtain ⟨B, hB, href, _⟩ :=
        (read_baseline_timeseries_structure blWs ["bl"] "stripmap"
          (Or.inr rfl) H).2 res hE (by decide)
      exact ⟨res, rfl, B, hB, href⟩

/-- Claim C2: `get_processor` returns `tops` exactly when some `IW*.xml` file
exists next to `meta_file`; otherwise `stripmap` exactly when `data.dat`
exists there or `meta_file` ends in `.xml`; otherwise it raises `ValueError`;
and no value other than `tops`/`stripmap` is ever returned. -/
theorem get_processor_cases (w : World) (meta_file : Path) :
    (get_processor w meta_file = .ok "tops" ↔
      globDir w.files (dirname meta_file) "IW*.xml" ≠ []) ∧
    (globDir w.files (dirname meta_file) "IW*.xml" = [] →
      (get_processor w meta_file = .ok "stripmap" ↔
        (dirname meta_file ++ ["data.dat"]) ∈ w.files ∨
          pyEndsWith (basename meta_file) ".xml" = true)) ∧
    ((globDir w.files (dirname meta_file) "IW*.xml" = [] ∧
        (dirname meta_file ++ ["data.dat"]) ∉ w.files ∧
        ¬ pyEndsWith (basename meta_file) ".xml" = true) →
      get_processor w meta_file =
        .error "ValueError: Un-recognized ISCE processor for metadata file") ∧
    (∀ r, get_processor w meta_file = .ok r → r = "tops" ∨ r = "stripmap") := by
  unfold get_processor
  by_cases h1 : globDir w.files (dirname meta_file) "IW*.xml" = []
  · by_cases h2 : (dirname meta_file ++ ["data.dat"]) ∈ w.files
    · simp [h1, h2]
    · by_cases h3 : pyEndsWith (basename meta_file) ".xml" = true <;>
        simp [h1, h2, h3]
  · simp [h1]

/-- Witness for C2 at a concrete world: a directory holding `IW1.xml` is
classified as `tops`. -/
theorem get_processor_cases_witness :
    (get_processor
        { files := [["master", "IW1.xml"]], mtime := fun _ => 0,
          rscData := fun _ => [], loadProd := fun _ => .error "",
          shelfFrame := fun _ => .error "", xmlInt := fun _ _ => none,
          attrInt := fun _ _ => none, attrMeta := fun _ => [],
          raster := fun _ _ => [], textLines := fun _ => [],
          templNum := fun _ _ => none, pyFloat := fun _ => .error "",
          fstr := fun _ => "", dtStr := fun _ => "" }
        ["master", "IW1.xml"] = .ok "tops") := by
  have h := (get_processor_cases
    { files := [["master", "IW1.xml"]], mtime := fun _ => 0,
      rscData := fun _ => [], loadProd := fun _ => .error "",
      shelfFrame := fun _ => .error "", xmlInt := fun _ _ => none,
      attrInt := fun _ _ => none, attrMeta := fun _ => [],
      raster := fun _ _ => [], textLines := fun _ => [],
      templNum := fun _ _ => none, pyFloat := fun _ => .error "",
      fstr := fun _ => "", dtStr := fun _ => "" }
    ["master", "IW1.xml"]).1
  exact h.mpr (by decide)

end

end PrepIsce
